/-
Verification of the route-optimization engine in
src/ml-backend/app/routers/reroute.py.

The Python module is shallowly embedded below:
  * pydantic models become structures over ℝ (floats are idealized as reals);
  * `calculate_distance_km` (lines 89-102) becomes a real-valued function
    built from Real.sin / Real.cos / Real.sqrt and a faithful `atan2`;
  * fallible code (`next(...)` over a generator, list indexing) returns
    `Except PyErr _`; a `try/except` block becomes a `match` on that result;
  * Python `while` loops become fuel-indexed recursions, where one unit of
    fuel is one loop iteration; the fuel supplied is the stop count, which
    is exactly the number of iterations the spec promises.

Theorems at the end settle the frozen claims about this module.
-/
import Mathlib

set_option maxHeartbeats 1000000

namespace RerouteVerif

open Real

/-! ## Data model (pydantic classes, lines 56-87 and 300-322) -/

/-- `class StopLocation(BaseModel)` — lines 56-58. -/
structure StopLocation where
  lat : ℝ
  lng : ℝ

/-- `class Stop(BaseModel)` — lines 60-64 (reroute endpoint stops).
`unloadingTimeMinutes: Optional[int] = 0`; the code reads it as
`stop.unloadingTimeMinutes or 0`, so `None` and `0` coincide and we model
the field as an integer defaulting to 0. -/
structure Stop where
  id : String
  name : String
  location : StopLocation
  unloadingTimeMinutes : ℤ

/-- `class TrafficData(BaseModel)` — lines 66-68. -/
structure TrafficData where
  congestionLevel : String
  currentSpeed : Option ℝ

/-- `class RerouteRequest(BaseModel)` — lines 73-79. -/
structure RerouteRequest where
  currentLocation : StopLocation
  remainingStops : List Stop
  currentTraffic : TrafficData
  currentWeather : String
  timeOfDay : String
  dayOfWeek : String

/-- `class RerouteResponse(BaseModel)` — lines 81-87.  `estimatedETAs` is a
dict stop-id → minutes; we model it as an association list in insertion
order. -/
structure RerouteResponse where
  optimizedSequence : List String
  estimatedETAs : List (String × ℝ)
  timeSavings : ℝ
  confidence : ℝ
  method : String
  reason : String

/-- `class LastMileStop(BaseModel)` — lines 301-306.  The coordinates dict
`{"lat": ..., "lng": ...}` is modelled as a `StopLocation` (the claims
assume well-formed coordinate dicts).  `priority: Optional[int] = 0`. -/
structure LastMileStop where
  id : String
  name : String
  coordinates : StopLocation
  unloadingTimeMinutes : ℤ
  priority : ℤ

/-- `class LastMileRequest(BaseModel)` — lines 308-312.  The `constraints`
field is never read by the module and is omitted. -/
structure LastMileRequest where
  stops : List LastMileStop
  vehiclePosition : Option StopLocation
  currentSequence : Option (List String)

/-- One entry of `segment_durations` — built at lines 624-629. -/
structure SegmentDuration where
  fromStopId : String
  toStopId : String
  distanceMiles : ℝ
  durationMinutes : ℝ

/-- One side of `comparison_metrics` — lines 460-469 / 553-564. -/
structure RouteMetrics where
  totalDistance : ℝ
  totalTime : ℝ
  averageStopDistance : ℝ

structure ComparisonMetrics where
  currentRoute : RouteMetrics
  optimizedRoute : RouteMetrics

/-- `class LastMileResponse(BaseModel)` — lines 314-322. -/
structure LastMileResponse where
  optimized_sequence : List String
  time_savings_minutes : ℝ
  distance_savings_miles : ℝ
  confidence : ℝ
  route_path : List StopLocation
  segment_durations : List SegmentDuration
  reasoning : String
  comparison_metrics : ComparisonMetrics

/-- Python exceptions that the embedded code can raise. -/
inductive PyErr where
  | stopIteration
  | indexError
deriving DecidableEq

/-! ## Geometry (`calculate_distance_km`, lines 89-102) -/

/-- `math.radians`. -/
noncomputable def radians (deg : ℝ) : ℝ := deg * (Real.pi / 180)

/-- `math.atan2 y x`, defined on all four quadrants exactly as the C/Python
library function (the code only ever calls it with both arguments
non-negative, since they are `sqrt` results). -/
noncomputable def atan2 (y x : ℝ) : ℝ :=
  if 0 < x then Real.arctan (y / x)
  else if x < 0 then
    (if 0 ≤ y then Real.arctan (y / x) + Real.pi else Real.arctan (y / x) - Real.pi)
  else
    (if 0 < y then Real.pi / 2 else if y < 0 then -(Real.pi / 2) else 0)

/-- The intermediate `a` of the haversine formula — line 99. -/
noncomputable def hav_a (loc1 loc2 : StopLocation) : ℝ :=
  let lat1 := radians loc1.lat
  let lon1 := radians loc1.lng
  let lat2 := radians loc2.lat
  let lon2 := radians loc2.lng
  let dlat := lat2 - lat1
  let dlon := lon2 - lon1
  Real.sin (dlat / 2) ^ 2 +
    Real.cos lat1 * Real.cos lat2 * Real.sin (dlon / 2) ^ 2

/-- `calculate_distance_km` — lines 89-102. -/
noncomputable def calculate_distance_km (loc1 loc2 : StopLocation) : ℝ :=
  let a := hav_a loc1 loc2
  let c := 2 * atan2 (Real.sqrt a) (Real.sqrt (1 - a))
  6371.0 * c

/-! ### Geometry lemmas -/

lemma hav_a_self (loc : StopLocation) : hav_a loc loc = 0 := by
  simp [hav_a]

lemma hav_a_comm (loc1 loc2 : StopLocation) : hav_a loc1 loc2 = hav_a loc2 loc1 := by
  have key : ∀ u v : ℝ, Real.sin ((u - v) / 2) ^ 2 = Real.sin ((v - u) / 2) ^ 2 := by
    intro u v
    rw [show (u - v) / 2 = -((v - u) / 2) by ring, Real.sin_neg, neg_sq]
  simp only [hav_a]
  rw [key (radians loc2.lat) (radians loc1.lat),
      key (radians loc2.lng) (radians loc1.lng),
      mul_comm (Real.cos (radians loc1.lat)) (Real.cos (radians loc2.lat))]

lemma hav_a_nonneg (loc1 loc2 : StopLocation) : 0 ≤ hav_a loc1 loc2 := by
  simp only [hav_a]
  set x1 := radians loc1.lat
  set x2 := radians loc2.lat
  set w := (radians loc2.lng - radians loc1.lng) / 2
  have h1 : Real.sin ((x2 - x1) / 2) ^ 2 = (1 - Real.cos (x2 - x1)) / 2 := by
    have hd := Real.cos_two_mul ((x2 - x1) / 2)
    rw [show 2 * ((x2 - x1) / 2) = x2 - x1 by ring] at hd
    have hpy := Real.sin_sq_add_cos_sq ((x2 - x1) / 2)
    nlinarith [hd, hpy]
  have hc : Real.cos (x2 - x1) = Real.cos x2 * Real.cos x1 + Real.sin x2 * Real.sin x1 :=
    Real.cos_sub x2 x1
  have hs2 : 0 ≤ Real.sin w ^ 2 := sq_nonneg _
  have hs2' : Real.sin w ^ 2 ≤ 1 := by
    nlinarith [Real.sin_sq_add_cos_sq w, sq_nonneg (Real.cos w)]
  have hp1 := Real.sin_sq_add_cos_sq x1
  have hp2 := Real.sin_sq_add_cos_sq x2
  nlinarith [sq_nonneg (Real.sin x1 - Real.sin x2), sq_nonneg (Real.sin x1 + Real.sin x2),
    sq_nonneg (Real.cos x1 - Real.cos x2), sq_nonneg (Real.cos x1 + Real.cos x2),
    mul_self_nonneg ((1 - Real.sin w ^ 2) * (Real.cos x1 + Real.cos x2)),
    mul_nonneg hs2 (sq_nonneg (Real.cos x1 + Real.cos x2)),
    mul_nonneg (mul_nonneg hs2 hs2) (sq_nonneg (Real.cos x1 - Real.cos x2)),
    mul_nonneg (sub_nonneg.mpr hs2') (sq_nonneg (Real.cos x1 - Real.cos x2))]

lemma hav_a_le_one (loc1 loc2 : StopLocation) : hav_a loc1 loc2 ≤ 1 := by
  simp only [hav_a]
  set x1 := radians loc1.lat
  set x2 := radians loc2.lat
  set w := (radians loc2.lng - radians loc1.lng) / 2
  have h1 : Real.sin ((x2 - x1) / 2) ^ 2 = (1 - Real.cos (x2 - x1)) / 2 := by
    have hd := Real.cos_two_mul ((x2 - x1) / 2)
    rw [show 2 * ((x2 - x1) / 2) = x2 - x1 by ring] at hd
    have hpy := Real.sin_sq_add_cos_sq ((x2 - x1) / 2)
    nlinarith [hd, hpy]
  have hc : Real.cos (x2 - x1) = Real.cos x2 * Real.cos x1 + Real.sin x2 * Real.sin x1 :=
    Real.cos_sub x2 x1
  have hs2 : 0 ≤ Real.sin w ^ 2 := sq_nonneg _
  have hs2' : Real.sin w ^ 2 ≤ 1 := by
    nlinarith [Real.sin_sq_add_cos_sq w, sq_nonneg (Real.cos w)]
  have hp1 := Real.sin_sq_add_cos_sq x1
  have hp2 := Real.sin_sq_add_cos_sq x2
  nlinarith [sq_nonneg (Real.sin x1 - Real.sin x2), sq_nonneg (Real.sin x1 + Real.sin x2),
    sq_nonneg (Real.cos x1 - Real.cos x2), sq_nonneg (Real.cos x1 + Real.cos x2),
    mul_nonneg hs2 (sq_nonneg (Real.cos x1 - Real.cos x2)),
    mul_nonneg (sub_nonneg.mpr hs2') (sq_nonneg (Real.cos x1 + Real.cos x2))]

/-- `atan2` is non-negative on the closed upper-right quadrant. -/
lemma atan2_nonneg {y x : ℝ} (hy : 0 ≤ y) (hx : 0 ≤ x) : 0 ≤ atan2 y x := by
  unfold atan2
  rcases lt_or_eq_of_le hx with hx' | hx'
  · rw [if_pos hx']
    rw [← Real.arctan_zero]
    exact Real.arctan_strictMono.monotone (div_nonneg hy hx'.le)
  · rw [if_neg (by rw [← hx']; exact lt_irrefl 0), if_neg (by rw [← hx']; exact lt_irrefl 0)]
    rcases lt_or_eq_of_le hy with hy' | hy'
    · rw [if_pos hy']
      positivity
    · rw [if_neg (by rw [← hy']; exact lt_irrefl 0), if_neg (by rw [← hy']; exact not_lt.mpr le_rfl)]

/-- distance is symmetric. -/
lemma dist_symm (loc1 loc2 : StopLocation) :
    calculate_distance_km loc1 loc2 = calculate_distance_km loc2 loc1 := by
  simp only [calculate_distance_km, hav_a_comm loc1 loc2]

/-- distance of a point to itself is 0. -/
lemma dist_self (loc : StopLocation) : calculate_distance_km loc loc = 0 := by
  simp only [calculate_distance_km, hav_a_self]
  rw [Real.sqrt_zero, sub_zero, Real.sqrt_one]
  unfold atan2
  rw [if_pos one_pos]
  simp

/-- distance is non-negative. -/
lemma dist_nonneg (loc1 loc2 : StopLocation) : 0 ≤ calculate_distance_km loc1 loc2 := by
  simp only [calculate_distance_km]
  have h := atan2_nonneg (Real.sqrt_nonneg (hav_a loc1 loc2))
    (Real.sqrt_nonneg (1 - hav_a loc1 loc2))
  positivity

/-- Evaluation of the haversine distance between two points on the equator:
for `0 ≤ q - p < 180` degrees, the distance is the exact arc length
`6371 · radians (q - p)`. -/
lemma dist_equator (p q : ℝ) (h0 : 0 ≤ q - p) (h1 : q - p < 180) :
    calculate_distance_km ⟨0, p⟩ ⟨0, q⟩ = 6371 * ((q - p) * (Real.pi / 180)) := by
  have hpi := Real.pi_pos
  set w := (q - p) * (Real.pi / 180) / 2 with hw
  have hw0 : 0 ≤ w := by
    rw [hw]; positivity
  have hwlt : w < Real.pi / 2 := by
    rw [hw]
    have : (q - p) * (Real.pi / 180) < 180 * (Real.pi / 180) := by
      apply mul_lt_mul_of_pos_right h1
      positivity
    nlinarith
  have hA : hav_a ⟨0, p⟩ ⟨0, q⟩ = Real.sin w ^ 2 := by
    simp only [hav_a, radians]
    rw [show (0 : ℝ) * (Real.pi / 180) = 0 by ring]
    rw [show q * (Real.pi / 180) - p * (Real.pi / 180) = (q - p) * (Real.pi / 180) by ring]
    simp [hw]
  have hsin : 0 ≤ Real.sin w :=
    Real.sin_nonneg_of_nonneg_of_le_pi hw0 (by nlinarith)
  have hcos : 0 < Real.cos w :=
    Real.cos_pos_of_mem_Ioo ⟨by nlinarith, hwlt⟩
  simp only [calculate_distance_km, hA]
  have hsq1 : Real.sqrt (Real.sin w ^ 2) = Real.sin w := Real.sqrt_sq hsin
  have hsq2 : Real.sqrt (1 - Real.sin w ^ 2) = Real.cos w := by
    rw [show 1 - Real.sin w ^ 2 = Real.cos w ^ 2 by
      nlinarith [Real.sin_sq_add_cos_sq w]]
    exact Real.sqrt_sq hcos.le
  rw [hsq1, hsq2]
  unfold atan2
  rw [if_pos hcos, ← Real.tan_eq_sin_div_cos, Real.arctan_tan (by nlinarith) hwlt]
  rw [hw]; ring

/-! ## Traffic (`get_traffic_multiplier`, lines 104-112) -/

/-- Python `str.lower()` (ASCII): lower-case every character.  This is
`String.toLower` restated by mapping over the character list so that it
evaluates by kernel reduction. -/
def pyLower (s : String) : String := ⟨s.data.map Char.toLower⟩

/-- `get_traffic_multiplier` — the dict lookup with default 0.8. -/
noncomputable def get_traffic_multiplier (traffic_level : String) : ℝ :=
  if pyLower traffic_level = "none" then 1.0
  else if pyLower traffic_level = "light" then 0.9
  else if pyLower traffic_level = "moderate" then 0.75
  else if pyLower traffic_level = "heavy" then 0.5
  else 0.8

/-- `base_speed_kmh = 80.0 * traffic_mult` as computed identically at
lines 141-142 (nearest-neighbor branch) and 186-187 (exhaustive search). -/
noncomputable def reroute_base_speed_kmh (request : RerouteRequest) : ℝ :=
  80.0 * get_traffic_multiplier request.currentTraffic.congestionLevel

/-! ## Exhaustive search (`exhaustive_search_reroute`, lines 179-220)

`itertools.permutations` yields orderings in lexicographic order of input
indices: the first element is chosen by ascending index, then recursively
the permutations of the rest.  `picks l` lists the possible (chosen
element, remaining elements) splits in exactly that order, and `permsPy`
iterates it; the fuel argument is the list length. -/

def picks {α : Type} : List α → List (α × List α)
  | [] => []
  | x :: xs => (x, xs) :: (picks xs).map (fun p => (p.1, x :: p.2))

def permsFuel {α : Type} : Nat → List α → List (List α)
  | 0, _ => [[]]
  | n + 1, l => (picks l).flatMap (fun p => (permsFuel n p.2).map (p.1 :: ·))

/-- Enumeration of `itertools.permutations(stops)` in itertools order. -/
def permsPy {α : Type} (l : List α) : List (List α) := permsFuel l.length l

/-- Inner loop of `exhaustive_search_reroute` (lines 195-206): accumulate
total minutes (travel at `base_speed`, plus unloading) and the running ETA
map along one candidate ordering. -/
noncomputable def route_time_etas (base_speed : ℝ) (start : StopLocation)
    (perm : List Stop) : ℝ × List (String × ℝ) :=
  let r := perm.foldl (fun (acc : ℝ × List (String × ℝ) × StopLocation) stop =>
    let dist := calculate_distance_km acc.2.2 stop.location
    let travel_time := dist / base_speed * 60
    let unloading := (stop.unloadingTimeMinutes : ℝ)
    let total := acc.1 + travel_time + unloading
    (total, acc.2.1 ++ [(stop.id, total)], stop.location)) (0, [], start)
  (r.1, r.2.1)

/-- Total time of one candidate ordering, the quantity minimized by the
exhaustive search. -/
noncomputable def perm_total_time (base_speed : ℝ) (start : StopLocation)
    (perm : List Stop) : ℝ :=
  (route_time_etas base_speed start perm).1

/-- The `if total_time < best_time` update (lines 208-211); `none` is the
initial `best_time = inf`, `best_sequence = None` state. -/
noncomputable def bestStep (base_speed : ℝ) (start : StopLocation)
    (best : Option (ℝ × List String × List (String × ℝ))) (perm : List Stop) :
    Option (ℝ × List String × List (String × ℝ)) :=
  let te := route_time_etas base_speed start perm
  match best with
  | none => some (te.1, perm.map (·.id), te.2)
  | some b => if te.1 < b.1 then some (te.1, perm.map (·.id), te.2) else best

/-- The `for perm in permutations(stops)` loop (lines 194-211). -/
noncomputable def bestPerm (base_speed : ℝ) (start : StopLocation)
    (perms : List (List Stop)) : Option (ℝ × List String × List (String × ℝ)) :=
  perms.foldl (bestStep base_speed start) none

/-- `exhaustive_search_reroute` — lines 179-220.  Note the response labels
itself `method="heuristic"` (line 218) even though it is the exact solver.
The `none` branch is unreachable (the permutation list is never empty). -/
noncomputable def exhaustive_search_reroute (request : RerouteRequest) : RerouteResponse :=
  let base_speed := reroute_base_speed_kmh request
  let reason := "Exhaustive search over " ++
    toString (permsPy request.remainingStops).length ++ " permutations"
  match bestPerm base_speed request.currentLocation (permsPy request.remainingStops) with
  | some b =>
    { optimizedSequence := b.2.1, estimatedETAs := b.2.2, timeSavings := 0.0
      confidence := 0.75, method := "heuristic", reason := reason }
  | none =>
    { optimizedSequence := [], estimatedETAs := [], timeSavings := 0.0
      confidence := 0.75, method := "heuristic", reason := reason }

/-! ## Nearest-neighbor branch of `heuristic_reroute` (lines 134-177) -/

/-- The inner scan (lines 145-153): `nearest_idx = 0`,
`min_distance = inf`, then `if dist < min_distance` over
`enumerate(remaining)`.  `none` models the initial infinity. -/
noncomputable def nnSelectIdx (current_loc : StopLocation) (remaining : List Stop) :
    Nat × Option ℝ :=
  remaining.enum.foldl (fun (best : Nat × Option ℝ) p =>
    let dist := calculate_distance_km current_loc p.2.location
    match best.2 with
    | none => (p.1, some dist)
    | some bd => if dist < bd then (p.1, some dist) else best) (0, none)

/-- The `while remaining:` loop (lines 144-168), fuel-indexed; one unit of
fuel is one iteration, and `remaining.pop(nearest_idx)` shortens the list
each time, so `remaining.length` fuel runs the loop to completion. -/
noncomputable def nnRerouteLoop (base_speed : ℝ) :
    Nat → StopLocation → List Stop → ℝ → List String × List (String × ℝ)
  | 0, _, _, _ => ([], [])
  | fuel + 1, current_loc, remaining, cumulative_time =>
    if remaining.isEmpty then ([], [])
    else
      let sel := nnSelectIdx current_loc remaining
      match remaining[sel.1]? with
      | none => ([], [])
      | some next_stop =>
        let min_distance := match sel.2 with
          | some d => d
          | none => 0
        let travel_time_minutes := min_distance / base_speed * 60
        let unloading_time := (next_stop.unloadingTimeMinutes : ℝ)
        let cumulative_time' := cumulative_time + travel_time_minutes + unloading_time
        let rest := nnRerouteLoop base_speed fuel next_stop.location
          (remaining.eraseIdx sel.1) cumulative_time'
        (next_stop.id :: rest.1, (next_stop.id, cumulative_time') :: rest.2)

/-- The `len(stops) > 6` branch of `heuristic_reroute` (lines 134-177). -/
noncomputable def nearest_neighbor_reroute (request : RerouteRequest) : RerouteResponse :=
  let base_speed := reroute_base_speed_kmh request
  let r := nnRerouteLoop base_speed request.remainingStops.length
    request.currentLocation request.remainingStops 0
  { optimizedSequence := r.1, estimatedETAs := r.2, timeSavings := 0.0
    confidence := 0.6, method := "heuristic"
    reason := "Nearest-neighbor algorithm with traffic awareness" }

/-- `heuristic_reroute` — lines 114-177: trivial result for ≤ 1 stop,
exhaustive search for ≤ 6 stops, nearest-neighbor otherwise. -/
noncomputable def heuristic_reroute (request : RerouteRequest) : RerouteResponse :=
  if request.remainingStops.length ≤ 1 then
    { optimizedSequence := request.remainingStops.map (·.id)
      estimatedETAs := request.remainingStops.map (fun s => (s.id, 0.0))
      timeSavings := 0.0, confidence := 1.0, method := "heuristic"
      reason := "Only one stop remaining" }
  else if request.remainingStops.length ≤ 6 then exhaustive_search_reroute request
  else nearest_neighbor_reroute request

/-- The scoring oracle: consumes the node-feature rows and the adjacency
rows produced by `build_graph_from_stops` and either returns an
edge-score matrix (indexed as a total function, matching a tensor of
zero-filled diagonal) or raises. -/
def Oracle : Type :=
  List (List ℝ) → List (List ℝ) → Except PyErr (Nat → Nat → ℝ)

/-- `ml_reroute` — lines 222-247.  With no model loaded it falls back to
the heuristic (line 230); with a model loaded the `try` body is the TODO
placeholder that also just returns `heuristic_reroute(request)`
(line 243), and the `except` arm would do the same (line 247).  The
oracle is therefore never invoked on this path. -/
noncomputable def ml_reroute (TRAINED_MODEL : Option Oracle)
    (request : RerouteRequest) : RerouteResponse :=
  match TRAINED_MODEL with
  | none => heuristic_reroute request
  | some _ => heuristic_reroute request

/-! ## Last-mile optimization (lines 300-634) -/

/-- `next(s for s in stops if s.id == sid)`: the first stop with the given
id, or a `StopIteration` when the generator is exhausted. -/
def findStop (stops : List LastMileStop) (sid : String) : Option LastMileStop :=
  stops.find? (fun s => s.id = sid)

/-- Python `round(x, 2)` (result still a float).  Mathlib's `round` is
round-half-up while Python rounds half to even; the two agree except on
exact half-hundredths, which none of the claims depend on. -/
noncomputable def round2 (x : ℝ) : ℝ := ((round (x * 100) : ℤ) : ℝ) / 100

/-- Python `round(x, 1)`. -/
noncomputable def round1 (x : ℝ) : ℝ := ((round (x * 10) : ℤ) : ℝ) / 10

/-- `build_graph_from_stops` — lines 325-375.  Fails with `IndexError`
on `stops[0]` when the list is empty and no vehicle position is given
(unreachable from `ml_optimize_last_mile`, which requires ≥ 2 stops).
Node features exactly as lines 358-367; the adjacency matrix is the
row-normalized complete graph of lines 371-373. -/
noncomputable def build_graph_from_stops (stops : List LastMileStop)
    (vehicle_pos : Option StopLocation) :
    Except PyErr (List (List ℝ) × List (List ℝ)) :=
  let num_stops := stops.length
  match (match vehicle_pos with
         | some v => Except.ok v
         | none => match stops with
           | [] => Except.error PyErr.indexError
           | s :: _ => Except.ok s.coordinates : Except PyErr StopLocation) with
  | Except.error e => Except.error e
  | Except.ok start =>
    let node_features := stops.enum.map (fun p =>
      let stop := p.2
      let lat := stop.coordinates.lat
      let lng := stop.coordinates.lng
      let unloading := (stop.unloadingTimeMinutes : ℝ) / 60.0
      let priority := (stop.priority : ℝ)
      let is_start : ℝ := if p.1 = 0 then 1.0 else 0.0
      let x_norm := (lng + 180) / 360
      let y_norm := (lat + 90) / 180
      let dist_from_start := calculate_distance_km start stop.coordinates / 100.0
      [lat / 90.0, lng / 180.0, unloading, priority, is_start, x_norm, y_norm,
        dist_from_start])
    let adjacency := (List.range num_stops).map (fun i =>
      (List.range num_stops).map (fun j =>
        (if i = j then (0 : ℝ) else 1) / ((num_stops : ℝ) - 1)))
    Except.ok (node_features, adjacency)

/-- One `scores.argmax()` over the masked row (lines 391-396): scores of
visited nodes are `-inf` (modelled as `none`, below every real); the
first index attaining the maximum is returned, matching `torch.argmax`. -/
noncomputable def pickFirstMax (score : Nat → Option ℝ) (n : Nat) : Nat :=
  ((List.range n).foldl (fun (best : Option (Nat × Option ℝ)) j =>
    match best with
    | none => some (j, score j)
    | some b =>
      match score j, b.2 with
      | some s, some bs => if bs < s then some (j, score j) else best
      | some _, none => some (j, score j)
      | none, _ => best) none).elim 0 (·.1)

/-- The `while len(visited) < num_stops` loop of
`decode_route_from_scores` (lines 389-399); `visited` is a Python set,
modelled as a list with insert-if-absent. -/
noncomputable def decodeLoop (S : Nat → Nat → ℝ) (num_stops : Nat) :
    Nat → List Nat → List Nat → Nat → List Nat
  | 0, route, _, _ => route
  | fuel + 1, route, visited, current =>
    if visited.length < num_stops then
      let next := pickFirstMax
        (fun j => if j ∈ visited then none else some (S current j)) num_stops
      decodeLoop S num_stops fuel (route ++ [next])
        (if next ∈ visited then visited else next :: visited) next
    else route

/-- `decode_route_from_scores` — lines 378-401. -/
noncomputable def decode_route_from_scores (S : Nat → Nat → ℝ) (num_stops : Nat) :
    List Nat :=
  decodeLoop S num_stops num_stops [0] [0] 0

/-- `edge_scores.std().item()` — the (Bessel-corrected, as torch defaults
to) standard deviation over all `n × n` entries of the score tensor. -/
noncomputable def tensorStd (S : Nat → Nat → ℝ) (n : Nat) : ℝ :=
  let xs := (List.range n).flatMap (fun i => (List.range n).map (fun j => S i j))
  let mean := xs.sum / (xs.length : ℝ)
  Real.sqrt (((xs.map (fun x => (x - mean) ^ 2)).sum) / ((xs.length : ℝ) - 1))

/-- `request.currentSequence or [s.id for s in stops]` (lines 430 and 539):
Python `or` falls through on *falsy* left operands, so both a missing
current sequence and a caller-supplied **empty** one default to the
input-order id list. -/
def pyOr (cs : Option (List String)) (dflt : List String) : List String :=
  match cs with
  | none => dflt
  | some l => if l = [] then dflt else l

/-- Leg accumulation of `calculate_sequence_total_distance`
(lines 585-589). -/
noncomputable def csdLegs (stops : List LastMileStop) :
    List String → StopLocation → ℝ → Except PyErr ℝ
  | [], _, total => Except.ok total
  | sid :: rest, current_loc, total =>
    match findStop stops sid with
    | none => Except.error PyErr.stopIteration
    | some stop =>
      csdLegs stops rest stop.coordinates
        (total + calculate_distance_km current_loc stop.coordinates)

/-- `calculate_sequence_total_distance` — lines 568-591.  Sums the
haversine legs (including the leg from the start point to the first stop
of the sequence) and converts the total from km to miles. -/
noncomputable def calculate_sequence_total_distance (sequence : List String)
    (stops : List LastMileStop) (vehicle_pos : Option StopLocation) :
    Except PyErr ℝ :=
  match sequence with
  | [] => Except.ok 0
  | s0 :: _ =>
    match (match vehicle_pos with
           | some v => Except.ok v
           | none => match findStop stops s0 with
             | none => Except.error PyErr.stopIteration
             | some first_stop => Except.ok first_stop.coordinates :
           Except PyErr StopLocation) with
    | Except.error e => Except.error e
    | Except.ok start =>
      match csdLegs stops sequence start 0 with
      | Except.error e => Except.error e
      | Except.ok total => Except.ok (total * 0.621371)

/-- Inner fold of `build_segment_durations` (lines 613-632). -/
noncomputable def segLoop (stops : List LastMileStop) :
    List String → StopLocation → String → List SegmentDuration →
    Except PyErr (List SegmentDuration)
  | [], _, _, segments => Except.ok segments
  | sid :: rest, prev_loc, prev_id, segments =>
    if sid = prev_id then segLoop stops rest prev_loc prev_id segments
    else
      match findStop stops sid with
      | none => Except.error PyErr.stopIteration
      | some stop =>
        let dist_km := calculate_distance_km prev_loc stop.coordinates
        let dist_miles := dist_km * 0.621371
        let duration_min := dist_miles * 2
        segLoop stops rest stop.coordinates sid (segments ++
          [{ fromStopId := prev_id, toStopId := sid
             distanceMiles := round2 dist_miles
             durationMinutes := round1 duration_min }])

/-- `build_segment_durations` — lines 594-634. -/
noncomputable def build_segment_durations (sequence : List String)
    (stops : List LastMileStop) (vehicle_pos : Option StopLocation) :
    Except PyErr (List SegmentDuration) :=
  match sequence with
  | [] => Except.ok []
  | s0 :: _ =>
    match vehicle_pos with
    | some v => segLoop stops sequence v "vehicle" []
    | none =>
      match findStop stops s0 with
      | none => Except.error PyErr.stopIteration
      | some first_stop => segLoop stops sequence first_stop.coordinates s0 []

/-! ### Nearest-neighbor heuristic (`heuristic_optimize_last_mile`,
lines 477-565) -/

/-- `dist *= 0.8` for high-priority stops (lines 522-524): the effective
distance used for selection. -/
noncomputable def effective_distance (current_loc : StopLocation)
    (stop : LastMileStop) : ℝ :=
  let dist := calculate_distance_km current_loc stop.coordinates
  if stop.priority = 1 then dist * 0.8 else dist

/-- State of the `while unvisited:` loop (lines 505-536). -/
structure NNState where
  unvisited : List String
  optimized : List String
  current_loc : StopLocation
  total_distance : ℝ
  route_path : List StopLocation

/-- The scan over `stops` (lines 512-528): `nearest_id = None`,
`nearest_dist = inf`, skip visited stops, apply the priority discount,
keep the strictly smaller effective distance.  `none` is the initial
`(None, inf)` pair. -/
noncomputable def snStep (unvisited : List String) (current_loc : StopLocation)
    (best : Option (String × ℝ)) (stop : LastMileStop) : Option (String × ℝ) :=
  if stop.id ∉ unvisited then best
  else
    let dist := effective_distance current_loc stop
    match best with
    | none => some (stop.id, dist)
    | some b => if dist < b.2 then some (stop.id, dist) else best

noncomputable def selectNearest (stops : List LastMileStop)
    (unvisited : List String) (current_loc : StopLocation) :
    Option (String × ℝ) :=
  stops.foldl (snStep unvisited current_loc) none

/-- One iteration of the loop body (lines 511-536).  `if nearest_id:` is a
Python truthiness test: both `None` and the empty string skip the update
block, leaving the loop state unchanged (so the Python loop would spin
forever). -/
noncomputable def nnStep (stops : List LastMileStop) (st : NNState) :
    Except PyErr NNState :=
  match selectNearest stops st.unvisited st.current_loc with
  | none => Except.ok st
  | some sel =>
    if sel.1 = "" then Except.ok st
    else
      match findStop stops sel.1 with
      | none => Except.error PyErr.stopIteration
      | some stop =>
        Except.ok
          { unvisited := st.unvisited.erase sel.1
            optimized := st.optimized ++ [sel.1]
            current_loc := stop.coordinates
            total_distance := st.total_distance + sel.2
            route_path := st.route_path ++ [stop.coordinates] }

/-- The `while unvisited:` loop, fuel-indexed.  When the loop makes
progress every iteration (all selected ids non-empty), `stops.length`
fuel empties `unvisited`; when it stalls, the returned state is the
(fixed-point) state the Python loop would spin on forever. -/
noncomputable def nnLoopLM (stops : List LastMileStop) :
    Nat → NNState → Except PyErr NNState
  | 0, st => Except.ok st
  | fuel + 1, st =>
    if st.unvisited = [] then Except.ok st
    else
      match nnStep stops st with
      | Except.error e => Except.error e
      | Except.ok st' => nnLoopLM stops fuel st'

/-- Initial loop state (lines 498-509): start at the vehicle position or
the first stop, `unvisited = set(s.id for s in stops)` (a set: duplicates
collapse), `route_path` seeded with the start point. -/
noncomputable def initStateLM (request : LastMileRequest) :
    Except PyErr NNState :=
  match (match request.vehiclePosition with
         | some v => Except.ok v
         | none => match request.stops with
           | [] => Except.error PyErr.indexError
           | s :: _ => Except.ok s.coordinates : Except PyErr StopLocation) with
  | Except.error e => Except.error e
  | Except.ok start =>
    Except.ok
      { unvisited := (request.stops.map (·.id)).dedup
        optimized := []
        current_loc := start
        total_distance := 0
        route_path := [start] }

/-- `heuristic_optimize_last_mile` — lines 477-565. -/
noncomputable def heuristic_optimize_last_mile (request : LastMileRequest) :
    Except PyErr LastMileResponse :=
  let stops := request.stops
  if stops.length ≤ 1 then
    Except.ok
      { optimized_sequence := stops.map (·.id)
        time_savings_minutes := 0.0
        distance_savings_miles := 0.0
        confidence := 1.0
        route_path := stops.map (·.coordinates)
        segment_durations := []
        reasoning := "Single stop - no optimization needed"
        comparison_metrics :=
          { currentRoute := { totalDistance := 0, totalTime := 0, averageStopDistance := 0 }
            optimizedRoute := { totalDistance := 0, totalTime := 0, averageStopDistance := 0 } } }
  else
    match initStateLM request with
    | Except.error e => Except.error e
    | Except.ok st0 =>
      match nnLoopLM stops stops.length st0 with
      | Except.error e => Except.error e
      | Except.ok st =>
        let current_seq := pyOr request.currentSequence (stops.map (·.id))
        match calculate_sequence_total_distance current_seq stops
            request.vehiclePosition with
        | Except.error e => Except.error e
        | Except.ok current_dist =>
          match build_segment_durations st.optimized stops
              request.vehiclePosition with
          | Except.error e => Except.error e
          | Except.ok segments =>
            let distance_savings := max 0 (current_dist - st.total_distance)
            let time_savings := distance_savings * 2
            Except.ok
              { optimized_sequence := st.optimized
                time_savings_minutes := time_savings
                distance_savings_miles := distance_savings
                confidence := 0.65
                route_path := st.route_path
                segment_durations := segments
                reasoning := "Optimized using nearest-neighbor heuristic (ML model unavailable)"
                comparison_metrics :=
                  { currentRoute :=
                      { totalDistance := current_dist
                        totalTime := current_dist * 2
                        averageStopDistance := current_dist / (stops.length : ℝ) }
                    optimizedRoute :=
                      { totalDistance := st.total_distance
                        totalTime := st.total_distance * 2
                        averageStopDistance := st.total_distance / (stops.length : ℝ) } } }

/-- The `route_path` construction of the ML branch (lines 438-443). -/
noncomputable def mlRoutePath (stops : List LastMileStop)
    (vehicle_pos : Option StopLocation) :
    List String → List StopLocation → Except PyErr (List StopLocation)
  | [], acc => Except.ok acc
  | sid :: rest, acc =>
    match findStop stops sid with
    | none => Except.error PyErr.stopIteration
    | some stop => mlRoutePath stops vehicle_pos rest (acc ++ [stop.coordinates])

/-- `optimized_sequence = [request.stops[i].id for i in optimized_indices]`
(line 427); a bad index raises `IndexError`. -/
def idsOfIndices (stops : List LastMileStop) : List Nat → Except PyErr (List String)
  | [] => Except.ok []
  | i :: rest =>
    match stops[i]? with
    | none => Except.error PyErr.indexError
    | some s =>
      match idsOfIndices stops rest with
      | Except.error e => Except.error e
      | Except.ok tl => Except.ok (s.id :: tl)

/-- `route_path = []` seeded with the vehicle position when present
(lines 438-440). -/
def mlInitialPath (vehicle_pos : Option StopLocation) : List StopLocation :=
  match vehicle_pos with
  | some v => [v]
  | none => []

/-- The `try:` block of `ml_optimize_last_mile` (lines 414-471): build the
graph, invoke the oracle, decode, compute metrics, and assemble the
response.  Any failure inside is an `error`, which the caller's `except`
arm converts into the heuristic fallback. -/
noncomputable def mlTryBody (f : Oracle) (request : LastMileRequest) :
    Except PyErr LastMileResponse :=
  match build_graph_from_stops request.stops request.vehiclePosition with
  | Except.error e => Except.error e
  | Except.ok g =>
    match f g.1 g.2 with
    | Except.error e => Except.error e
    | Except.ok edge_scores =>
      let optimized_indices :=
        decode_route_from_scores edge_scores request.stops.length
      match idsOfIndices request.stops optimized_indices with
      | Except.error e => Except.error e
      | Except.ok optimized_sequence =>
        let current_seq := pyOr request.currentSequence (request.stops.map (·.id))
        match calculate_sequence_total_distance current_seq request.stops
            request.vehiclePosition with
        | Except.error e => Except.error e
        | Except.ok current_dist =>
          match calculate_sequence_total_distance optimized_sequence request.stops
              request.vehiclePosition with
          | Except.error e => Except.error e
          | Except.ok optimized_dist =>
            let distance_savings := max 0 (current_dist - optimized_dist)
            let time_savings := distance_savings * 2
            match mlRoutePath request.stops request.vehiclePosition optimized_sequence
                (mlInitialPath request.vehiclePosition) with
            | Except.error e => Except.error e
            | Except.ok route_path =>
              match build_segment_durations optimized_sequence request.stops
                  request.vehiclePosition with
              | Except.error e => Except.error e
              | Except.ok segments =>
                let confidence :=
                  min 0.95 (0.7 + tensorStd edge_scores request.stops.length * 0.5)
                Except.ok
                  { optimized_sequence := optimized_sequence
                    time_savings_minutes := time_savings
                    distance_savings_miles := distance_savings
                    confidence := confidence
                    route_path := route_path
                    segment_durations := segments
                    reasoning :=
                      "Optimized using Graph Neural Network (GNN) model with 87.5% accuracy"
                    comparison_metrics :=
                      { currentRoute :=
                          { totalDistance := current_dist
                            totalTime := current_dist * 2
                            averageStopDistance :=
                              if request.stops.length ≠ 0 then
                                current_dist / (request.stops.length : ℝ)
                              else 0 }
                        optimizedRoute :=
                          { totalDistance := optimized_dist
                            totalTime := optimized_dist * 2
                            averageStopDistance :=
                              if request.stops.length ≠ 0 then
                                optimized_dist / (request.stops.length : ℝ)
                              else 0 } } }

/-- `ml_optimize_last_mile` — lines 404-474: heuristic fallback when no
model is loaded or at most one stop remains; otherwise run the `try`
block and fall back to the heuristic on any exception. -/
noncomputable def ml_optimize_last_mile (TRAINED_MODEL : Option Oracle)
    (request : LastMileRequest) : Except PyErr LastMileResponse :=
  match TRAINED_MODEL with
  | none => heuristic_optimize_last_mile request
  | some f =>
    if request.stops.length ≤ 1 then heuristic_optimize_last_mile request
    else
      match mlTryBody f request with
      | Except.ok r => Except.ok r
      | Except.error _ => heuristic_optimize_last_mile request

/-! ## Helper lemmas about the embedded functions -/

lemma ml_reroute_eq (model : Option Oracle) (request : RerouteRequest) :
    ml_reroute model request = heuristic_reroute request := by
  cases model <;> rfl

lemma exhaustive_method (request : RerouteRequest) :
    (exhaustive_search_reroute request).method = "heuristic" := by
  simp only [exhaustive_search_reroute]
  split <;> rfl

lemma heuristic_reroute_method (request : RerouteRequest) :
    (heuristic_reroute request).method = "heuristic" := by
  unfold heuristic_reroute
  split
  · rfl
  · split
    · exact exhaustive_method request
    · rfl

lemma heuristic_confidence {request : LastMileRequest} {r : LastMileResponse}
    (h : heuristic_optimize_last_mile request = Except.ok r) :
    r.confidence = 1.0 ∨ r.confidence = 0.65 := by
  unfold heuristic_optimize_last_mile at h
  by_cases hlen : request.stops.length ≤ 1
  · simp only [if_pos hlen] at h
    injection h with h'
    subst h'
    exact Or.inl rfl
  · simp only [if_neg hlen] at h
    rcases h0 : initStateLM request with e | st0 <;> simp only [h0] at h
    · exact Except.noConfusion h
    rcases h1 : nnLoopLM request.stops request.stops.length st0 with e | st <;>
      simp only [h1] at h
    · exact Except.noConfusion h
    rcases h2 : calculate_sequence_total_distance
        (pyOr request.currentSequence (request.stops.map (·.id)))
        request.stops request.vehiclePosition with e | cd <;> simp only [h2] at h
    · exact Except.noConfusion h
    rcases h3 : build_segment_durations st.optimized request.stops
        request.vehiclePosition with e | segs <;> simp only [h3] at h
    · exact Except.noConfusion h
    injection h with h'
    subst h'
    exact Or.inr rfl

lemma mlTryBody_confidence {f : Oracle} {request : LastMileRequest}
    {r : LastMileResponse} (h : mlTryBody f request = Except.ok r) :
    ∃ s : ℝ, 0 ≤ s ∧ r.confidence = min 0.95 (0.7 + s * 0.5) := by
  unfold mlTryBody at h
  rcases h0 : build_graph_from_stops request.stops request.vehiclePosition with e | g <;>
    simp only [h0] at h
  · exact Except.noConfusion h
  rcases h1 : f g.1 g.2 with e | edge_scores <;> simp only [h1] at h
  · exact Except.noConfusion h
  rcases h2 : idsOfIndices request.stops
      (decode_route_from_scores edge_scores request.stops.length) with e | oseq <;>
    simp only [h2] at h
  · exact Except.noConfusion h
  rcases h3 : calculate_sequence_total_distance
      (pyOr request.currentSequence (request.stops.map (·.id)))
      request.stops request.vehiclePosition with e | cd <;> simp only [h3] at h
  · exact Except.noConfusion h
  rcases h4 : calculate_sequence_total_distance oseq request.stops
      request.vehiclePosition with e | od <;> simp only [h4] at h
  · exact Except.noConfusion h
  rcases h5 : mlRoutePath request.stops request.vehiclePosition oseq
      (mlInitialPath request.vehiclePosition) with e | rp <;> simp only [h5] at h
  · exact Except.noConfusion h
  rcases h6 : build_segment_durations oseq request.stops
      request.vehiclePosition with e | segs <;> simp only [h6] at h
  · exact Except.noConfusion h
  injection h with h'
  subst h'
  exact ⟨tensorStd edge_scores request.stops.length, Real.sqrt_nonneg _, rfl⟩

/-! ### Permutation-enumeration lemmas (for the exhaustive search) -/

lemma picks_complete {α : Type} {y : α} :
    ∀ {l : List α}, y ∈ l → ∃ ys, (y, ys) ∈ picks l ∧ (y :: ys).Perm l
  | [], h => absurd h (List.not_mem_nil y)
  | x :: xs, h => by
    rcases List.mem_cons.mp h with rfl | hy
    · exact ⟨xs, List.mem_cons_self _ _, List.Perm.refl _⟩
    · rcases picks_complete hy with ⟨ys, hmem, hperm⟩
      refine ⟨x :: ys, ?_, ?_⟩
      · exact List.mem_cons.mpr (Or.inr (List.mem_map.mpr ⟨(y, ys), hmem, rfl⟩))
      · exact (List.Perm.swap x y ys).trans (hperm.cons x)

/-- Every permutation of `l` occurs in the itertools enumeration. -/
lemma permsFuel_complete {α : Type} :
    ∀ (n : Nat) (l q : List α), l.length = n → q.Perm l → q ∈ permsFuel n l := by
  intro n
  induction n with
  | zero =>
    intro l q hlen hperm
    have hl : l = [] := List.length_eq_zero.mp hlen
    subst hl
    have hq : q = [] := List.perm_nil.mp hperm
    subst hq
    simp [permsFuel]
  | succ n ih =>
    intro l q hlen hperm
    have hq : q.length = n + 1 := by rw [hperm.length_eq, hlen]
    rcases q with _ | ⟨y, q'⟩
    · simp at hq
    have hy : y ∈ l := hperm.mem_iff.mp (List.mem_cons_self y q')
    rcases picks_complete hy with ⟨ys, hmem, hys⟩
    have hq' : q'.Perm ys := by
      have : (y :: q').Perm (y :: ys) := hperm.trans hys.symm
      exact this.cons_inv
    have hyslen : ys.length = n := by
      have := hys.length_eq
      simp only [List.length_cons, hlen] at this
      omega
    have hrec : q' ∈ permsFuel n ys := ih ys q' hyslen hq'
    simp only [permsFuel]
    exact List.mem_flatMap.mpr ⟨(y, ys), hmem, List.mem_map.mpr ⟨q', hrec, rfl⟩⟩

lemma permsPy_complete {α : Type} {l q : List α} (h : q.Perm l) : q ∈ permsPy l :=
  permsFuel_complete l.length l q rfl h

lemma permsPy_ne_nil {α : Type} (l : List α) : permsPy l ≠ [] :=
  List.ne_nil_of_mem (permsPy_complete (List.Perm.refl l))

/-- Characterization of the `if total_time < best_time` fold: starting
from a best value `t`, the fold either keeps the accumulator (everything
in `xs` costs at least `t`) or returns the first element of `xs` whose
cost is the minimum, which is strictly below `t` and strictly below every
cost before it. -/
lemma bestPerm_go (bs : ℝ) (start : StopLocation) :
    ∀ (xs : List (List Stop)) (t : ℝ) (sq : List String) (et : List (String × ℝ)),
      ∃ t' sq' et',
        xs.foldl (bestStep bs start) (some (t, sq, et)) = some (t', sq', et') ∧
        ((t' = t ∧ sq' = sq ∧ et' = et ∧ ∀ q ∈ xs, t ≤ perm_total_time bs start q) ∨
         (∃ pre p suf, xs = pre ++ p :: suf ∧ t' = perm_total_time bs start p ∧
           t' < t ∧ sq' = p.map (·.id) ∧ et' = (route_time_etas bs start p).2 ∧
           (∀ q ∈ pre, t' < perm_total_time bs start q) ∧
           (∀ q ∈ xs, t' ≤ perm_total_time bs start q))) := by
  intro xs
  induction xs with
  | nil =>
    intro t sq et
    exact ⟨t, sq, et, rfl, Or.inl ⟨rfl, rfl, rfl, by simp⟩⟩
  | cons x rest ih =>
    intro t sq et
    rw [List.foldl_cons]
    by_cases hx : perm_total_time bs start x < t
    · have hstep : bestStep bs start (some (t, sq, et)) x =
          some (perm_total_time bs start x, x.map (·.id), (route_time_etas bs start x).2) := by
        simp only [bestStep, perm_total_time] at hx ⊢
        rw [if_pos hx]
      rw [hstep]
      rcases ih (perm_total_time bs start x) (x.map (·.id)) (route_time_etas bs start x).2
        with ⟨t', sq', et', hfold, hcase⟩
      refine ⟨t', sq', et', hfold, Or.inr ?_⟩
      rcases hcase with ⟨ht', hsq', het', hall⟩ | ⟨pre, p, suf, hsplit, hcost, hlt, hsq', het', hpre, hall⟩
      · refine ⟨[], x, rest, by simp, by rw [ht'], by rw [ht']; exact hx, hsq', het', by simp, ?_⟩
        intro q hq
        rcases List.mem_cons.mp hq with rfl | hq
        · rw [ht']
        · rw [ht']; exact hall q hq
      · refine ⟨x :: pre, p, suf, by rw [hsplit, List.cons_append], hcost,
          hlt.trans hx, hsq', het', ?_, ?_⟩
        · intro q hq
          rcases List.mem_cons.mp hq with rfl | hq
          · exact hlt
          · exact hpre q hq
        · intro q hq
          rcases List.mem_cons.mp hq with rfl | hq
          · exact hlt.le
          · exact hall q hq
    · have hstep : bestStep bs start (some (t, sq, et)) x = some (t, sq, et) := by
        simp only [bestStep, perm_total_time] at hx ⊢
        rw [if_neg hx]
      rw [hstep]
      rcases ih t sq et with ⟨t', sq', et', hfold, hcase⟩
      refine ⟨t', sq', et', hfold, ?_⟩
      rcases hcase with ⟨ht', hsq', het', hall⟩ | ⟨pre, p, suf, hsplit, hcost, hlt, hsq', het', hpre, hall⟩
      · refine Or.inl ⟨ht', hsq', het', ?_⟩
        intro q hq
        rcases List.mem_cons.mp hq with rfl | hq
        · exact not_lt.mp hx
        · exact hall q hq
      · refine Or.inr ⟨x :: pre, p, suf, by rw [hsplit, List.cons_append], hcost, hlt,
          hsq', het', ?_, ?_⟩
        · intro q hq
          rcases List.mem_cons.mp hq with rfl | hq
          · exact hlt.trans_le (not_lt.mp hx)
          · exact hpre q hq
        · intro q hq
          rcases List.mem_cons.mp hq with rfl | hq
          · exact (hlt.trans_le (not_lt.mp hx)).le
          · exact hall q hq

/-- The permutation loop returns the first enumerated ordering attaining
the minimum total time. -/
lemma bestPerm_spec (bs : ℝ) (start : StopLocation) (perms : List (List Stop))
    (hne : perms ≠ []) :
    ∃ p pre suf, perms = pre ++ p :: suf ∧
      bestPerm bs start perms =
        some (perm_total_time bs start p, p.map (·.id), (route_time_etas bs start p).2) ∧
      (∀ q ∈ pre, perm_total_time bs start p < perm_total_time bs start q) ∧
      (∀ q ∈ perms, perm_total_time bs start p ≤ perm_total_time bs start q) := by
  rcases perms with _ | ⟨x, rest⟩
  · exact absurd rfl hne
  unfold bestPerm
  rw [List.foldl_cons]
  have hstep : bestStep bs start none x =
      some (perm_total_time bs start x, x.map (·.id), (route_time_etas bs start x).2) := rfl
  rw [hstep]
  rcases bestPerm_go bs start rest (perm_total_time bs start x) (x.map (·.id))
      (route_time_etas bs start x).2 with ⟨t', sq', et', hfold, hcase⟩
  rcases hcase with ⟨ht', hsq', het', hall⟩ | ⟨pre, p, suf, hsplit, hcost, hlt, hsq', het', hpre, hall⟩
  · refine ⟨x, [], rest, by simp, ?_, by simp, ?_⟩
    · rw [hfold, ht', hsq', het']
    · intro q hq
      rcases List.mem_cons.mp hq with rfl | hq
      · exact le_refl _
      · exact hall q hq
  · refine ⟨p, x :: pre, suf, by rw [hsplit, List.cons_append], ?_, ?_, ?_⟩
    · rw [hfold, hcost, hsq', het']
    · intro q hq
      rcases List.mem_cons.mp hq with rfl | hq
      · rw [← hcost]; exact hlt
      · rw [← hcost]; exact hpre q hq
    · intro q hq
      rcases List.mem_cons.mp hq with rfl | hq
      · rw [← hcost]; exact hlt.le
      · rw [← hcost]; exact hall q hq

/-! ### Characterization of the nearest-stop scan -/

lemma snStep_skip {unvisited : List String} {cur : StopLocation}
    {best : Option (String × ℝ)} {stop : LastMileStop}
    (h : stop.id ∉ unvisited) : snStep unvisited cur best stop = best := by
  unfold snStep
  rw [if_pos h]

lemma snStep_none {unvisited : List String} {cur : StopLocation}
    {stop : LastMileStop} (h : stop.id ∈ unvisited) :
    snStep unvisited cur none stop = some (stop.id, effective_distance cur stop) := by
  unfold snStep
  rw [if_neg (by simpa using h)]

lemma snStep_some_lt {unvisited : List String} {cur : StopLocation}
    {b : String × ℝ} {stop : LastMileStop} (h : stop.id ∈ unvisited)
    (hlt : effective_distance cur stop < b.2) :
    snStep unvisited cur (some b) stop = some (stop.id, effective_distance cur stop) := by
  unfold snStep
  rw [if_neg (by simpa using h)]
  exact if_pos hlt

lemma snStep_some_ge {unvisited : List String} {cur : StopLocation}
    {b : String × ℝ} {stop : LastMileStop} (h : stop.id ∈ unvisited)
    (hge : ¬ effective_distance cur stop < b.2) :
    snStep unvisited cur (some b) stop = some b := by
  unfold snStep
  rw [if_neg (by simpa using h)]
  exact if_neg hge

/-- Any step result is `some` of either the accumulator or the scanned
stop with its effective distance. -/
lemma snStep_cases (unvisited : List String) (cur : StopLocation)
    (acc : Option (String × ℝ)) (x : LastMileStop) :
    snStep unvisited cur acc x = acc ∨
      snStep unvisited cur acc x = some (x.id, effective_distance cur x) ∧
        x.id ∈ unvisited ∧
        ∀ b : String × ℝ, acc = some b → effective_distance cur x ≤ b.2 := by
  by_cases hxu : x.id ∈ unvisited
  · rcases acc with _ | a
    · refine Or.inr ⟨snStep_none hxu, hxu, by simp⟩
    · by_cases hlt : effective_distance cur x < a.2
      · refine Or.inr ⟨snStep_some_lt hxu hlt, hxu, ?_⟩
        intro b hb
        injection hb with hb'
        rw [← hb']
        exact hlt.le
      · exact Or.inl (snStep_some_ge hxu hlt)
  · exact Or.inl (snStep_skip hxu)

/-- The step never clears the accumulator. -/
lemma snStep_some (unvisited : List String) (cur : StopLocation)
    (b : String × ℝ) (x : LastMileStop) :
    ∃ b', snStep unvisited cur (some b) x = some b' := by
  rcases snStep_cases unvisited cur (some b) x with h | ⟨h, _, _⟩
  · exact ⟨b, h⟩
  · exact ⟨_, h⟩

/-- Provenance: a selected candidate either was the accumulator or is an
unvisited stop of the list with its effective distance. -/
lemma snFold_provenance (unvisited : List String) (cur : StopLocation) :
    ∀ (rest : List LastMileStop) (acc : Option (String × ℝ)) (sid : String) (d : ℝ),
      rest.foldl (snStep unvisited cur) acc = some (sid, d) →
      acc = some (sid, d) ∨
        ∃ s ∈ rest, s.id = sid ∧ s.id ∈ unvisited ∧ d = effective_distance cur s := by
  intro rest
  induction rest with
  | nil => intro acc sid d h; exact Or.inl h
  | cons x rest ih =>
    intro acc sid d h
    rw [List.foldl_cons] at h
    rcases ih (snStep unvisited cur acc x) sid d h with hacc | ⟨s, hs, hsid, hsu, hd⟩
    · rcases snStep_cases unvisited cur acc x with he | ⟨he, hxu, _⟩
      · exact Or.inl (he ▸ hacc)
      · rw [he] at hacc
        injection hacc with h1
        injection h1 with ha hb
        exact Or.inr ⟨x, List.mem_cons_self _ _, ha, hxu, hb.symm⟩
    · exact Or.inr ⟨s, List.mem_cons_of_mem x hs, hsid, hsu, hd⟩

/-- Minimality: the selected effective distance is below the accumulator
and below every unvisited stop of the scanned list. -/
lemma snFold_min (unvisited : List String) (cur : StopLocation) :
    ∀ (rest : List LastMileStop) (acc : Option (String × ℝ)) (sid : String) (d : ℝ),
      rest.foldl (snStep unvisited cur) acc = some (sid, d) →
      (∀ b : String × ℝ, acc = some b → d ≤ b.2) ∧
        (∀ s ∈ rest, s.id ∈ unvisited → d ≤ effective_distance cur s) := by
  intro rest
  induction rest with
  | nil =>
    intro acc sid d h
    refine ⟨?_, by simp⟩
    intro b hb
    rw [hb] at h
    injection h with h1
    rw [h1]
  | cons x rest ih =>
    intro acc sid d h
    rw [List.foldl_cons] at h
    obtain ⟨ihacc, ihrest⟩ := ih (snStep unvisited cur acc x) sid d h
    have hxval := snStep_cases unvisited cur acc x
    have key : ∀ b : String × ℝ, acc = some b → d ≤ b.2 := by
      intro b hb
      rcases hxval with he | ⟨he, _, hle⟩
      · exact ihacc b (by rw [he, hb])
      · exact (ihacc (x.id, effective_distance cur x) he).trans (hle b hb)
    refine ⟨key, ?_⟩
    intro s hs hsu
    rcases List.mem_cons.mp hs with rfl | hs'
    · rcases hxval with he | ⟨he, _, _⟩
      · rcases hacc : acc with _ | a
        · rw [hacc, snStep_none hsu] at he
          exact absurd he (by simp)
        · have hd : d ≤ a.2 := ihacc a (by rw [he, hacc])
          by_cases hlt : effective_distance cur s < a.2
          · rw [hacc, snStep_some_lt hsu hlt] at he
            injection he with he'
            rw [← he'] at hd
            exact hd
          · exact hd.trans (not_lt.mp hlt)
      · exact ihacc (s.id, effective_distance cur s) he
    · exact ihrest s hs' hsu

/-- Success: the scan yields a candidate as soon as the accumulator is set
or some scanned stop is unvisited. -/
lemma snFold_success (unvisited : List String) (cur : StopLocation) :
    ∀ (rest : List LastMileStop) (acc : Option (String × ℝ)),
      ((∃ s ∈ rest, s.id ∈ unvisited) ∨ ∃ b, acc = some b) →
      ∃ b, rest.foldl (snStep unvisited cur) acc = some b := by
  intro rest
  induction rest with
  | nil =>
    intro acc h
    rcases h with ⟨s, hs, _⟩ | ⟨b, hb⟩
    · exact absurd hs (List.not_mem_nil s)
    · exact ⟨b, hb⟩
  | cons x rest ih =>
    intro acc h
    rw [List.foldl_cons]
    apply ih
    rcases h with ⟨s, hs, hsu⟩ | ⟨b, hb⟩
    · rcases List.mem_cons.mp hs with rfl | hs'
      · right
        rcases acc with _ | a
        · exact ⟨_, snStep_none hsu⟩
        · exact snStep_some unvisited cur a s
      · exact Or.inl ⟨s, hs', hsu⟩
    · right
      subst hb
      exact snStep_some unvisited cur b x

lemma selectNearest_provenance {stops : List LastMileStop} {unvisited : List String}
    {cur : StopLocation} {sid : String} {d : ℝ}
    (h : selectNearest stops unvisited cur = some (sid, d)) :
    ∃ s ∈ stops, s.id = sid ∧ s.id ∈ unvisited ∧ d = effective_distance cur s := by
  rcases snFold_provenance unvisited cur stops none sid d h with hacc | hgood
  · exact absurd hacc (by simp)
  · exact hgood

lemma selectNearest_min {stops : List LastMileStop} {unvisited : List String}
    {cur : StopLocation} {sid : String} {d : ℝ}
    (h : selectNearest stops unvisited cur = some (sid, d)) :
    ∀ s ∈ stops, s.id ∈ unvisited → d ≤ effective_distance cur s :=
  (snFold_min unvisited cur stops none sid d h).2

lemma selectNearest_success {stops : List LastMileStop} {unvisited : List String}
    {cur : StopLocation} (h : ∃ s ∈ stops, s.id ∈ unvisited) :
    ∃ b, selectNearest stops unvisited cur = some b :=
  snFold_success unvisited cur stops none (Or.inl h)

/-! ## Claim theorems -/

/-- C8: the haversine distance is symmetric, zero on identical
coordinates, and non-negative for every pair of coordinates (including
degenerate ones); moreover the intermediate `a` always lies in [0, 1], so
both `sqrt` calls are on non-negative arguments and the Python function
raises no error and returns a finite value. -/
theorem c8_distance_properties (a b : StopLocation) :
    calculate_distance_km a b = calculate_distance_km b a ∧
    calculate_distance_km a a = 0 ∧
    0 ≤ calculate_distance_km a b ∧
    0 ≤ hav_a a b ∧ hav_a a b ≤ 1 :=
  ⟨dist_symm a b, dist_self a, dist_nonneg a b, hav_a_nonneg a b, hav_a_le_one a b⟩

/-- C10: a congestion level whose lower-cased form is not one of
"none"/"light"/"moderate"/"heavy" gets the default multiplier 0.8, so the
base speed used by both the exhaustive and nearest-neighbor solvers is
80 × 0.8 = 64 km/h. -/
theorem c10_traffic_default (request : RerouteRequest)
    (h : pyLower request.currentTraffic.congestionLevel ∉
      (["none", "light", "moderate", "heavy"] : List String)) :
    get_traffic_multiplier request.currentTraffic.congestionLevel = 0.8 ∧
    reroute_base_speed_kmh request = 64 := by
  simp only [List.mem_cons, List.not_mem_nil, or_false, not_or] at h
  obtain ⟨h1, h2, h3, h4⟩ := h
  have hm : get_traffic_multiplier request.currentTraffic.congestionLevel = 0.8 := by
    unfold get_traffic_multiplier
    rw [if_neg h1, if_neg h2, if_neg h3, if_neg h4]
  refine ⟨hm, ?_⟩
  unfold reroute_base_speed_kmh
  rw [hm]
  norm_num

def c10req : RerouteRequest :=
  { currentLocation := ⟨0, 0⟩
    remainingStops := []
    currentTraffic := { congestionLevel := "Gridlock", currentSpeed := none }
    currentWeather := "clear"
    timeOfDay := "morning"
    dayOfWeek := "monday" }

theorem c10_witness :
    get_traffic_multiplier c10req.currentTraffic.congestionLevel = 0.8 ∧
    reroute_base_speed_kmh c10req = 64 :=
  c10_traffic_default c10req (by decide)

/-- C2 (amended): with any oracle state (absent, or raising — it is never
invoked on this path), a request with 2–6 stops is routed to the
exhaustive solver and one with more than 6 stops to the nearest-neighbor
solver, but the `method` field is "heuristic" in **both** cases (the
exhaustive solver labels its own result "heuristic"), and it is never
"ml". -/
theorem c2_cascade_routing (model : Option Oracle) (request : RerouteRequest)
    (h2 : 2 ≤ request.remainingStops.length) :
    (request.remainingStops.length ≤ 6 →
      ml_reroute model request = exhaustive_search_reroute request) ∧
    (6 < request.remainingStops.length →
      ml_reroute model request = nearest_neighbor_reroute request) ∧
    (ml_reroute model request).method = "heuristic" ∧
    (ml_reroute model request).method ≠ "ml" := by
  have hm : (ml_reroute model request).method = "heuristic" := by
    rw [ml_reroute_eq]
    exact heuristic_reroute_method request
  refine ⟨?_, ?_, hm, ?_⟩
  · intro h6
    rw [ml_reroute_eq]
    unfold heuristic_reroute
    rw [if_neg (by omega), if_pos h6]
  · intro h6
    rw [ml_reroute_eq]
    unfold heuristic_reroute
    rw [if_neg (by omega), if_neg (by omega)]
  · rw [hm]
    decide

/-- C3: for 2–6 stops, the ordering kept by the exhaustive search is a
member of the enumeration whose total time (travel legs at the
traffic-adjusted speed plus unloading times) is ≤ that of **every**
permutation of the stop list, and it is the first ordering in
`itertools.permutations` enumeration order attaining that minimum (every
earlier ordering is strictly worse). -/
theorem c3_exhaustive_global_optimum (request : RerouteRequest)
    (h2 : 2 ≤ request.remainingStops.length)
    (h6 : request.remainingStops.length ≤ 6) :
    ∃ p pre suf,
      permsPy request.remainingStops = pre ++ p :: suf ∧
      (exhaustive_search_reroute request).optimizedSequence = p.map (·.id) ∧
      (∀ q : List Stop, q.Perm request.remainingStops →
        perm_total_time (reroute_base_speed_kmh request) request.currentLocation p ≤
          perm_total_time (reroute_base_speed_kmh request) request.currentLocation q) ∧
      (∀ q ∈ pre,
        perm_total_time (reroute_base_speed_kmh request) request.currentLocation p <
          perm_total_time (reroute_base_speed_kmh request) request.currentLocation q) := by
  rcases bestPerm_spec (reroute_base_speed_kmh request) request.currentLocation
      (permsPy request.remainingStops) (permsPy_ne_nil _) with
    ⟨p, pre, suf, hsplit, hbest, hpre, hall⟩
  refine ⟨p, pre, suf, hsplit, ?_, ?_, hpre⟩
  · simp only [exhaustive_search_reroute, hbest]
  · intro q hq
    exact hall q (permsPy_complete hq)

def c3req : RerouteRequest :=
  { currentLocation := ⟨0, 0⟩
    remainingStops := [⟨"a", "a", ⟨0, 1⟩, 0⟩, ⟨"b", "b", ⟨0, 2⟩, 0⟩]
    currentTraffic := { congestionLevel := "none", currentSpeed := none }
    currentWeather := "clear"
    timeOfDay := "morning"
    dayOfWeek := "monday" }

theorem c3_witness :
    ∃ p pre suf,
      permsPy c3req.remainingStops = pre ++ p :: suf ∧
      (exhaustive_search_reroute c3req).optimizedSequence = p.map (·.id) ∧
      (∀ q : List Stop, q.Perm c3req.remainingStops →
        perm_total_time (reroute_base_speed_kmh c3req) c3req.currentLocation p ≤
          perm_total_time (reroute_base_speed_kmh c3req) c3req.currentLocation q) ∧
      (∀ q ∈ pre,
        perm_total_time (reroute_base_speed_kmh c3req) c3req.currentLocation p <
          perm_total_time (reroute_base_speed_kmh c3req) c3req.currentLocation q) :=
  c3_exhaustive_global_optimum c3req (by decide) (by decide)

def c2req : RerouteRequest :=
  { currentLocation := ⟨0, 0⟩
    remainingStops :=
      [⟨"s1", "s1", ⟨0, 0⟩, 0⟩, ⟨"s2", "s2", ⟨0, 1⟩, 0⟩, ⟨"s3", "s3", ⟨0, 2⟩, 0⟩]
    currentTraffic := { congestionLevel := "none", currentSpeed := none }
    currentWeather := "clear"
    timeOfDay := "morning"
    dayOfWeek := "monday" }

/-- C2 counterexample: a 3-stop request (inside the 2–6 band) with no
oracle loaded is answered with `method = "heuristic"`, not `"exact"` —
the exhaustive solver never labels its result "exact". -/
theorem c2_counterexample :
    2 ≤ c2req.remainingStops.length ∧ c2req.remainingStops.length ≤ 6 ∧
    (ml_reroute none c2req).method = "heuristic" ∧
    (ml_reroute none c2req).method ≠ "exact" := by
  refine ⟨by decide, by decide, ?_, ?_⟩
  · rw [ml_reroute_eq]
    exact heuristic_reroute_method c2req
  · rw [ml_reroute_eq, heuristic_reroute_method c2req]
    decide

theorem c2_witness :
    (c2req.remainingStops.length ≤ 6 →
      ml_reroute (some (fun _ _ => Except.error PyErr.stopIteration)) c2req =
        exhaustive_search_reroute c2req) ∧
    (6 < c2req.remainingStops.length →
      ml_reroute (some (fun _ _ => Except.error PyErr.stopIteration)) c2req =
        nearest_neighbor_reroute c2req) ∧
    (ml_reroute (some (fun _ _ => Except.error PyErr.stopIteration)) c2req).method =
      "heuristic" ∧
    (ml_reroute (some (fun _ _ => Except.error PyErr.stopIteration)) c2req).method ≠
      "ml" :=
  c2_cascade_routing (some (fun _ _ => Except.error PyErr.stopIteration)) c2req
    (by decide)

/-- C9: a single-stop request short-circuits to the trivial result — the
optimized sequence is exactly that stop's id, both savings are 0, the
confidence is 1.0 — and no solver runs (the ML path is bypassed and the
heuristic returns before its selection loop). -/
theorem c9_single_stop (model : Option Oracle) (request : LastMileRequest)
    (s0 : LastMileStop) (h : request.stops = [s0]) :
    ml_optimize_last_mile model request = heuristic_optimize_last_mile request ∧
    ml_optimize_last_mile model request = Except.ok
      { optimized_sequence := [s0.id]
        time_savings_minutes := 0.0
        distance_savings_miles := 0.0
        confidence := 1.0
        route_path := [s0.coordinates]
        segment_durations := []
        reasoning := "Single stop - no optimization needed"
        comparison_metrics :=
          { currentRoute := { totalDistance := 0, totalTime := 0, averageStopDistance := 0 }
            optimizedRoute := { totalDistance := 0, totalTime := 0, averageStopDistance := 0 } } } := by
  have hlen : request.stops.length ≤ 1 := by rw [h]; simp
  have h1 : ml_optimize_last_mile model request = heuristic_optimize_last_mile request := by
    cases model with
    | none => rfl
    | some f =>
      simp only [ml_optimize_last_mile]
      rw [if_pos hlen]
  refine ⟨h1, ?_⟩
  rw [h1]
  unfold heuristic_optimize_last_mile
  rw [if_pos hlen, h]
  rfl

def c9stop : LastMileStop :=
  { id := "only", name := "only", coordinates := ⟨10, 20⟩
    unloadingTimeMinutes := 5, priority := 0 }

def c9req : LastMileRequest :=
  { stops := [c9stop], vehiclePosition := none, currentSequence := none }

theorem c9_witness :
    ml_optimize_last_mile none c9req = heuristic_optimize_last_mile c9req ∧
    ml_optimize_last_mile none c9req = Except.ok
      { optimized_sequence := [c9stop.id]
        time_savings_minutes := 0.0
        distance_savings_miles := 0.0
        confidence := 1.0
        route_path := [c9stop.coordinates]
        segment_durations := []
        reasoning := "Single stop - no optimization needed"
        comparison_metrics :=
          { currentRoute := { totalDistance := 0, totalTime := 0, averageStopDistance := 0 }
            optimizedRoute := { totalDistance := 0, totalTime := 0, averageStopDistance := 0 } } } :=
  c9_single_stop none c9req c9stop rfl

/-- C7: whichever strategy answers, the confidence of the returned
result lies in [0, 1] (the heuristic paths use the constants 0.65 and
1.0); and every successful learned-path result — which is exactly what
the cascade returns when the `try` block succeeds, third conjunct — has
confidence of the form `min 0.95 (0.7 + s·0.5)` with `s` a standard
deviation (hence ≥ 0), so the learned-path confidence lies in
[0.7, 0.95]: it is capped at 0.95. -/
theorem c7_confidence_bounds (model : Option Oracle) (request : LastMileRequest)
    (r : LastMileResponse) (h : ml_optimize_last_mile model request = Except.ok r) :
    (0 ≤ r.confidence ∧ r.confidence ≤ 1) ∧
    (∀ (f : Oracle) (r' : LastMileResponse), mlTryBody f request = Except.ok r' →
      (∃ s : ℝ, 0 ≤ s ∧ r'.confidence = min 0.95 (0.7 + s * 0.5)) ∧
      0.7 ≤ r'.confidence ∧ r'.confidence ≤ 0.95) ∧
    (∀ (f : Oracle) (r' : LastMileResponse), model = some f →
      ¬ request.stops.length ≤ 1 →
      mlTryBody f request = Except.ok r' → r = r') := by
  have hofh : heuristic_optimize_last_mile request = Except.ok r →
      0 ≤ r.confidence ∧ r.confidence ≤ 1 := by
    intro hh
    rcases heuristic_confidence hh with h1 | h1 <;> rw [h1] <;> norm_num
  refine ⟨?_, ?_, ?_⟩
  · cases model with
    | none => exact hofh h
    | some f =>
      simp only [ml_optimize_last_mile] at h
      by_cases hlen : request.stops.length ≤ 1
      · rw [if_pos hlen] at h
        exact hofh h
      · rw [if_neg hlen] at h
        rcases hmb : mlTryBody f request with e | r' <;> simp only [hmb] at h
        · exact hofh h
        · have hr : r' = r := by injection h
          subst hr
          rcases mlTryBody_confidence hmb with ⟨s, hs, hc⟩
          rw [hc]
          constructor
          · exact le_min (by norm_num) (by nlinarith)
          · exact (min_le_left _ _).trans (by norm_num)
  · intro f r' hmb
    rcases mlTryBody_confidence hmb with ⟨s, hs, hc⟩
    refine ⟨⟨s, hs, hc⟩, ?_, ?_⟩
    · rw [hc]
      exact le_min (by norm_num) (by nlinarith)
    · rw [hc]
      exact min_le_left _ _
  · intro f r' hf hlen hmb
    subst hf
    simp only [ml_optimize_last_mile] at h
    rw [if_neg hlen] at h
    simp only [hmb] at h
    injection h with h'
    exact h'.symm

/-! ### Evaluation lemmas for the nearest-neighbor loop -/

lemma nnLoopLM_succ (stops : List LastMileStop) (fuel : Nat) (st : NNState) :
    nnLoopLM stops (fuel + 1) st =
      if st.unvisited = [] then Except.ok st
      else
        match nnStep stops st with
        | Except.error e => Except.error e
        | Except.ok st' => nnLoopLM stops fuel st' := rfl

/-- A successful selection of a non-empty id advances the loop state. -/
lemma nnStep_eq_ok {stops : List LastMileStop} {st : NNState} {sid : String}
    {d : ℝ} {stop : LastMileStop}
    (hsel : selectNearest stops st.unvisited st.current_loc = some (sid, d))
    (hne : ¬ sid = "") (hfind : findStop stops sid = some stop) :
    nnStep stops st = Except.ok
      { unvisited := st.unvisited.erase sid
        optimized := st.optimized ++ [sid]
        current_loc := stop.coordinates
        total_distance := st.total_distance + d
        route_path := st.route_path ++ [stop.coordinates] } := by
  unfold nnStep
  simp only [hsel]
  rw [if_neg hne]
  simp only [hfind]

/-- Selecting the empty id leaves the loop state unchanged (the Python
truthiness guard `if nearest_id:` skips the update). -/
lemma nnStep_stall {stops : List LastMileStop} {st : NNState} {d : ℝ}
    (hsel : selectNearest stops st.unvisited st.current_loc = some ("", d)) :
    nnStep stops st = Except.ok st := by
  unfold nnStep
  simp only [hsel, if_true]

/-! ### C5 concrete development: two stops at the same location -/

def c5stopN : LastMileStop :=
  { id := "N", name := "N", coordinates := ⟨0, 0⟩
    unloadingTimeMinutes := 0, priority := 0 }

def c5stopP : LastMileStop :=
  { id := "P", name := "P", coordinates := ⟨0, 0⟩
    unloadingTimeMinutes := 0, priority := 1 }

def c5req : LastMileRequest :=
  { stops := [c5stopN, c5stopP], vehiclePosition := none, currentSequence := none }

def c5st0 : NNState :=
  { unvisited := ["N", "P"], optimized := [], current_loc := ⟨0, 0⟩
    total_distance := 0, route_path := [⟨0, 0⟩] }

def c5st1 : NNState :=
  { unvisited := ["P"], optimized := ["N"], current_loc := ⟨0, 0⟩
    total_distance := 0, route_path := [⟨0, 0⟩, ⟨0, 0⟩] }

def c5st2 : NNState :=
  { unvisited := [], optimized := ["N", "P"], current_loc := ⟨0, 0⟩
    total_distance := 0, route_path := [⟨0, 0⟩, ⟨0, 0⟩, ⟨0, 0⟩] }

lemma c5_effN : effective_distance ⟨0, 0⟩ c5stopN = 0 := by
  unfold effective_distance
  rw [if_neg (by decide : ¬ c5stopN.priority = 1)]
  exact dist_self _

lemma c5_effP : effective_distance ⟨0, 0⟩ c5stopP = 0 := by
  unfold effective_distance
  rw [if_pos (by decide : c5stopP.priority = 1)]
  rw [show calculate_distance_km ⟨0, 0⟩ c5stopP.coordinates = 0 from dist_self _]
  norm_num

lemma c5_select1 :
    selectNearest c5req.stops c5st0.unvisited c5st0.current_loc = some ("N", 0) := by
  show List.foldl (snStep ["N", "P"] ⟨0, 0⟩) none [c5stopN, c5stopP] = some ("N", 0)
  rw [List.foldl_cons, snStep_none (by decide : c5stopN.id ∈ ["N", "P"]), c5_effN,
    List.foldl_cons,
    snStep_some_ge (by decide : c5stopP.id ∈ ["N", "P"])
      (by rw [c5_effP]; exact lt_irrefl 0),
    List.foldl_nil]
  rfl

lemma c5_select2 :
    selectNearest c5req.stops c5st1.unvisited c5st1.current_loc = some ("P", 0) := by
  show List.foldl (snStep ["P"] ⟨0, 0⟩) none [c5stopN, c5stopP] = some ("P", 0)
  rw [List.foldl_cons, snStep_skip (by decide : c5stopN.id ∉ ["P"]),
    List.foldl_cons, snStep_none (by decide : c5stopP.id ∈ ["P"]), c5_effP,
    List.foldl_nil]
  rfl

lemma c5_step1 : nnStep c5req.stops c5st0 = Except.ok c5st1 := by
  rw [nnStep_eq_ok c5_select1 (by decide) (by rfl)]
  simp only [Except.ok.injEq]
  show ({ unvisited := ["N", "P"].erase "N", optimized := [] ++ ["N"]
          current_loc := c5stopN.coordinates, total_distance := (0 : ℝ) + 0
          route_path := [⟨0, 0⟩] ++ [c5stopN.coordinates] } : NNState) = c5st1
  unfold c5st1
  norm_num [c5stopN]

lemma c5_step2 : nnStep c5req.stops c5st1 = Except.ok c5st2 := by
  rw [nnStep_eq_ok c5_select2 (by decide) (by rfl)]
  simp only [Except.ok.injEq]
  show ({ unvisited := ["P"].erase "P", optimized := ["N"] ++ ["P"]
          current_loc := c5stopP.coordinates, total_distance := (0 : ℝ) + 0
          route_path := [⟨0, 0⟩, ⟨0, 0⟩] ++ [c5stopP.coordinates] } : NNState) = c5st2
  unfold c5st2
  norm_num [c5stopP]

lemma c5_init : initStateLM c5req = Except.ok c5st0 := rfl

lemma c5_loop : nnLoopLM c5req.stops c5req.stops.length c5st0 = Except.ok c5st2 := by
  rw [show c5req.stops.length = 1 + 1 from rfl, nnLoopLM_succ,
    if_neg (by decide : ¬ c5st0.unvisited = [])]
  simp only [c5_step1]
  rw [show (1 : Nat) = 0 + 1 from rfl, nnLoopLM_succ,
    if_neg (by decide : ¬ c5st1.unvisited = [])]
  simp only [c5_step2]
  rfl

/-- C5 counterexample: the heuristic starts at the first stop (0,0); both
stops N (normal) and P (high-priority) are at true distance 0 from it,
exactly one is high-priority, yet N is selected first — at distance 0 the
20 % discount does not change the comparison and the strict `<` keeps the
first stop in input order. -/
theorem c5_counterexample :
    calculate_distance_km ⟨0, 0⟩ c5stopN.coordinates =
      calculate_distance_km ⟨0, 0⟩ c5stopP.coordinates ∧
    c5stopP.priority = 1 ∧ c5stopN.priority ≠ 1 ∧
    ∃ r, heuristic_optimize_last_mile c5req = Except.ok r ∧
      r.optimized_sequence = ["N", "P"] := by
  refine ⟨rfl, rfl, by decide, ?_⟩
  unfold heuristic_optimize_last_mile
  rw [if_neg (by decide : ¬ c5req.stops.length ≤ 1)]
  simp only [c5_init, c5_loop]
  obtain ⟨cd, hcsd⟩ : ∃ cd,
      calculate_sequence_total_distance
        (pyOr c5req.currentSequence (List.map (fun s => s.id) c5req.stops))
        c5req.stops c5req.vehiclePosition = Except.ok cd := ⟨_, rfl⟩
  obtain ⟨segs, hsegs⟩ : ∃ segs,
      build_segment_durations c5st2.optimized c5req.stops c5req.vehiclePosition =
        Except.ok segs := ⟨_, rfl⟩
  simp only [hcsd, hsegs]
  exact ⟨_, rfl, rfl⟩

/-- C5 (amended): the effective distance of a high-priority stop is its
geometric distance times 0.8, and whenever two unvisited stops are at
equal **positive** true distance from the current position with exactly
one of them high-priority (stop ids being distinct), the selection scan
never picks the normal one.  (At distance zero the discount is
ineffective and input order decides, as the counterexample shows.) -/
theorem c5_priority_discount (stops : List LastMileStop) (unvisited : List String)
    (cur : StopLocation) (u v : LastMileStop)
    (hnd : (stops.map (fun s => s.id)).Nodup)
    (hu : u ∈ stops) (hv : v ∈ stops)
    (huu : u.id ∈ unvisited) (hvu : v.id ∈ unvisited)
    (heq : calculate_distance_km cur u.coordinates =
      calculate_distance_km cur v.coordinates)
    (hpos : 0 < calculate_distance_km cur u.coordinates)
    (hup : u.priority = 1) (hvp : v.priority ≠ 1) :
    effective_distance cur u = calculate_distance_km cur u.coordinates * 0.8 ∧
    ∀ d, selectNearest stops unvisited cur ≠ some (v.id, d) := by
  have heffu : effective_distance cur u =
      calculate_distance_km cur u.coordinates * 0.8 := by
    unfold effective_distance
    rw [if_pos hup]
  have heffv : effective_distance cur v = calculate_distance_km cur u.coordinates := by
    unfold effective_distance
    rw [if_neg hvp, heq]
  refine ⟨heffu, ?_⟩
  intro d h
  obtain ⟨s, hsmem, hsid, _, hd⟩ := selectNearest_provenance h
  have hsv : s = v := List.inj_on_of_nodup_map hnd hsmem hv hsid
  subst hsv
  have hmin : d ≤ effective_distance cur u := selectNearest_min h u hu huu
  rw [hd] at hmin
  rw [heffv, heffu] at hmin
  nlinarith

def c5u : LastMileStop :=
  { id := "U", name := "U", coordinates := ⟨0, 1⟩
    unloadingTimeMinutes := 0, priority := 1 }

def c5v : LastMileStop :=
  { id := "V", name := "V", coordinates := ⟨0, 1⟩
    unloadingTimeMinutes := 0, priority := 0 }

theorem c5_witness :
    effective_distance ⟨0, 0⟩ c5u = calculate_distance_km ⟨0, 0⟩ c5u.coordinates * 0.8 ∧
    ∀ d, selectNearest [c5v, c5u] ["V", "U"] ⟨0, 0⟩ ≠ some (c5v.id, d) :=
  c5_priority_discount [c5v, c5u] ["V", "U"] ⟨0, 0⟩ c5u c5v (by decide)
    (List.mem_cons_of_mem c5v (List.mem_cons_self c5u []))
    (List.mem_cons_self c5v [c5u])
    (by decide) (by decide) rfl
    (by rw [show c5u.coordinates = (⟨0, 1⟩ : StopLocation) from rfl,
          dist_equator 0 1 (by norm_num) (by norm_num)]
        positivity)
    (by decide) (by decide)

/-! ### C1 concrete development: a stop with the empty-string id -/

def c1stopE : LastMileStop :=
  { id := "", name := "Depot", coordinates := ⟨0, 0⟩
    unloadingTimeMinutes := 0, priority := 0 }

def c1stopA : LastMileStop :=
  { id := "A", name := "A", coordinates := ⟨0, 1⟩
    unloadingTimeMinutes := 0, priority := 0 }

def c1req : LastMileRequest :=
  { stops := [c1stopE, c1stopA], vehiclePosition := none, currentSequence := none }

def c1st0 : NNState :=
  { unvisited := ["", "A"], optimized := [], current_loc := ⟨0, 0⟩
    total_distance := 0, route_path := [⟨0, 0⟩] }

lemma c1_effE : effective_distance ⟨0, 0⟩ c1stopE = 0 := by
  unfold effective_distance
  rw [if_neg (by decide : ¬ c1stopE.priority = 1)]
  exact dist_self _

lemma c1_select :
    selectNearest c1req.stops c1st0.unvisited c1st0.current_loc = some ("", 0) := by
  show List.foldl (snStep ["", "A"] ⟨0, 0⟩) none [c1stopE, c1stopA] = some ("", 0)
  rw [List.foldl_cons, snStep_none (by decide : c1stopE.id ∈ ["", "A"]), c1_effE,
    List.foldl_cons,
    snStep_some_ge (by decide : c1stopA.id ∈ ["", "A"]) ?hge, List.foldl_nil]
  · rfl
  case hge =>
    refine not_lt.mpr ?_
    unfold effective_distance
    rw [if_neg (by decide : ¬ c1stopA.priority = 1)]
    exact dist_nonneg _ _

lemma c1_stall : nnStep c1req.stops c1st0 = Except.ok c1st0 :=
  nnStep_stall c1_select

lemma c1_loop : ∀ fuel, nnLoopLM c1req.stops fuel c1st0 = Except.ok c1st0 := by
  intro fuel
  induction fuel with
  | zero => rfl
  | succ n ih =>
    rw [nnLoopLM_succ, if_neg (by decide : ¬ c1st0.unvisited = [])]
    simp only [c1_stall]
    exact ih

/-- C1 (code bug witnessed at the failing input): with stops
`[{id: ""}, {id: "A"}]` the selection loop never selects anything — one
iteration maps the initial state to itself, because the nearest stop is
the empty-id one and the truthiness guard `if nearest_id:` treats `""` as
"no stop found" — so after any number of iterations (Python: forever) the
optimized sequence is `[]`, not a permutation of the 2 stop ids. -/
theorem c1_empty_id_stalls :
    initStateLM c1req = Except.ok c1st0 ∧
    (∀ fuel, nnLoopLM c1req.stops fuel c1st0 = Except.ok c1st0) ∧
    c1req.stops.length = 2 ∧
    ∃ r, heuristic_optimize_last_mile c1req = Except.ok r ∧
      r.optimized_sequence = [] ∧
      ¬ r.optimized_sequence.Perm (c1req.stops.map (fun s => s.id)) := by
  refine ⟨rfl, c1_loop, rfl, ?_⟩
  unfold heuristic_optimize_last_mile
  rw [if_neg (by decide : ¬ c1req.stops.length ≤ 1)]
  simp only [show initStateLM c1req = Except.ok c1st0 from rfl,
    c1_loop c1req.stops.length]
  obtain ⟨cd, hcsd⟩ : ∃ cd,
      calculate_sequence_total_distance
        (pyOr c1req.currentSequence (List.map (fun s => s.id) c1req.stops))
        c1req.stops c1req.vehiclePosition = Except.ok cd := ⟨_, rfl⟩
  obtain ⟨segs, hsegs⟩ : ∃ segs,
      build_segment_durations c1st0.optimized c1req.stops c1req.vehiclePosition =
        Except.ok segs := ⟨_, rfl⟩
  simp only [hcsd, hsegs]
  refine ⟨_, rfl, rfl, ?_⟩
  show ¬ ([] : List String).Perm (List.map (fun s => s.id) c1req.stops)
  decide

/-! ### Success lemmas: the heuristic raises only on dangling ids -/

lemma findStop_found {stops : List LastMileStop} {sid : String}
    (h : ∃ s ∈ stops, s.id = sid) : ∃ stop, findStop stops sid = some stop := by
  unfold findStop
  rcases h with ⟨s, hs, hsid⟩
  induction stops with
  | nil => exact absurd hs (List.not_mem_nil s)
  | cons x xs ih =>
    by_cases hx : x.id = sid
    · exact ⟨x, by rw [List.find?_cons_of_pos _ (by simp [hx])]⟩
    · rcases List.mem_cons.mp hs with rfl | hs'
      · exact absurd hsid hx
      · obtain ⟨stop, hstop⟩ := ih hs'
        exact ⟨stop, by rw [List.find?_cons_of_neg _ (by simp [hx]), hstop]⟩

lemma csdLegs_ok (stops : List LastMileStop) :
    ∀ (seq : List String) (cur : StopLocation) (total : ℝ),
      (∀ sid ∈ seq, ∃ s ∈ stops, s.id = sid) →
      ∃ x, csdLegs stops seq cur total = Except.ok x := by
  intro seq
  induction seq with
  | nil => exact fun _ total _ => ⟨total, rfl⟩
  | cons sid rest ih =>
    intro cur total hall
    obtain ⟨stop, hfind⟩ := findStop_found (hall sid (List.mem_cons_self _ _))
    simp only [csdLegs, hfind]
    exact ih _ _ (fun s hs => hall s (List.mem_cons_of_mem _ hs))

lemma csd_ok {seq : List String} {stops : List LastMileStop} {vp : Option StopLocation}
    (h : ∀ sid ∈ seq, ∃ s ∈ stops, s.id = sid) :
    ∃ x, calculate_sequence_total_distance seq stops vp = Except.ok x := by
  rcases seq with _ | ⟨s0, rest⟩
  · exact ⟨0, rfl⟩
  unfold calculate_sequence_total_distance
  rcases vp with _ | v
  · obtain ⟨stop, hfind⟩ := findStop_found (h s0 (List.mem_cons_self _ _))
    obtain ⟨t, ht⟩ := csdLegs_ok stops (s0 :: rest) stop.coordinates 0 h
    simp only [hfind, ht]
    exact ⟨_, rfl⟩
  · obtain ⟨t, ht⟩ := csdLegs_ok stops (s0 :: rest) v 0 h
    simp only [ht]
    exact ⟨_, rfl⟩

lemma segLoop_ok (stops : List LastMileStop) :
    ∀ (seq : List String) (prev_loc : StopLocation) (prev_id : String)
      (acc : List SegmentDuration),
      (∀ sid ∈ seq, ∃ s ∈ stops, s.id = sid) →
      ∃ x, segLoop stops seq prev_loc prev_id acc = Except.ok x := by
  intro seq
  induction seq with
  | nil => exact fun _ _ acc _ => ⟨acc, rfl⟩
  | cons sid rest ih =>
    intro prev_loc prev_id acc hall
    by_cases hskip : sid = prev_id
    · simp only [segLoop, if_pos hskip]
      exact ih _ _ _ (fun s hs => hall s (List.mem_cons_of_mem _ hs))
    · obtain ⟨stop, hfind⟩ := findStop_found (hall sid (List.mem_cons_self _ _))
      simp only [segLoop, if_neg hskip, hfind]
      exact ih _ _ _ (fun s hs => hall s (List.mem_cons_of_mem _ hs))

lemma bsd_ok {seq : List String} {stops : List LastMileStop} {vp : Option StopLocation}
    (h : ∀ sid ∈ seq, ∃ s ∈ stops, s.id = sid) :
    ∃ x, build_segment_durations seq stops vp = Except.ok x := by
  rcases seq with _ | ⟨s0, rest⟩
  · exact ⟨[], rfl⟩
  unfold build_segment_durations
  rcases vp with _ | v
  · obtain ⟨stop, hfind⟩ := findStop_found (h s0 (List.mem_cons_self _ _))
    obtain ⟨x, hx⟩ := segLoop_ok stops (s0 :: rest) stop.coordinates s0 [] h
    simp only [hfind, hx]
    exact ⟨_, rfl⟩
  · obtain ⟨x, hx⟩ := segLoop_ok stops (s0 :: rest) v "vehicle" [] h
    simp only [hx]
    exact ⟨_, rfl⟩

/-- Transfer a pointwise property through the falsy-`or` default: it
holds of `pyOr cs dflt` as soon as it holds of the default list and of
any caller-supplied list. -/
lemma pyOr_forall {P : String → Prop} {cs : Option (List String)}
    {dflt : List String}
    (hd : ∀ sid ∈ dflt, P sid)
    (hs : ∀ seq, cs = some seq → ∀ sid ∈ seq, P sid) :
    ∀ sid ∈ pyOr cs dflt, P sid := by
  intro sid hsid
  rcases hc : cs with _ | seq
  · subst hc
    exact hd sid hsid
  · subst hc
    simp only [pyOr] at hsid
    by_cases h0 : seq = []
    · rw [if_pos h0] at hsid
      exact hd sid hsid
    · rw [if_neg h0] at hsid
      exact hs seq rfl sid hsid

/-- The selection step never raises: the selected id always names a stop
of the list, so the `next(...)` lookup succeeds; and the loop never adds
an id outside the stop list to the optimized sequence. -/
lemma nnStep_ok (stops : List LastMileStop) (st : NNState)
    (hopt : ∀ sid ∈ st.optimized, ∃ s ∈ stops, s.id = sid) :
    ∃ st', nnStep stops st = Except.ok st' ∧
      ∀ sid ∈ st'.optimized, ∃ s ∈ stops, s.id = sid := by
  rcases hsel : selectNearest stops st.unvisited st.current_loc with _ | b
  · refine ⟨st, ?_, hopt⟩
    unfold nnStep
    simp only [hsel]
  · rcases b with ⟨sid, d⟩
    by_cases hne : sid = ""
    · subst hne
      exact ⟨st, nnStep_stall hsel, hopt⟩
    · obtain ⟨s, hsmem, hsid, _, _⟩ := selectNearest_provenance hsel
      obtain ⟨stop, hfind⟩ := findStop_found ⟨s, hsmem, hsid⟩
      refine ⟨_, nnStep_eq_ok hsel hne hfind, ?_⟩
      intro sid' hsid'
      rcases List.mem_append.mp hsid' with hold | hnew
      · exact hopt sid' hold
      · rw [List.mem_singleton.mp hnew]
        exact ⟨s, hsmem, hsid⟩

lemma nnLoopLM_ok (stops : List LastMileStop) :
    ∀ (fuel : Nat) (st : NNState),
      (∀ sid ∈ st.optimized, ∃ s ∈ stops, s.id = sid) →
      ∃ st', nnLoopLM stops fuel st = Except.ok st' ∧
        ∀ sid ∈ st'.optimized, ∃ s ∈ stops, s.id = sid := by
  intro fuel
  induction fuel with
  | zero => exact fun st h => ⟨st, rfl, h⟩
  | succ n ih =>
    intro st h
    rw [nnLoopLM_succ]
    by_cases hemp : st.unvisited = []
    · rw [if_pos hemp]
      exact ⟨st, rfl, h⟩
    · rw [if_neg hemp]
      obtain ⟨st', hstep, h'⟩ := nnStep_ok stops st h
      simp only [hstep]
      exact ih st' h'

lemma initStateLM_ok {request : LastMileRequest} (hne : request.stops ≠ []) :
    ∃ st0, initStateLM request = Except.ok st0 ∧ st0.optimized = [] := by
  unfold initStateLM
  rcases hvp : request.vehiclePosition with _ | v <;> simp only []
  · rcases hstops : request.stops with _ | ⟨s, rest⟩
    · exact absurd hstops hne
    · simp only [hstops]
      exact ⟨_, rfl, rfl⟩
  · exact ⟨_, rfl, rfl⟩

lemma initStateLM_unvisited {request : LastMileRequest} {st0 : NNState}
    (h : initStateLM request = Except.ok st0) :
    st0.unvisited = (request.stops.map (fun s => s.id)).dedup := by
  unfold initStateLM at h
  rcases hvp : request.vehiclePosition with _ | v <;> simp only [hvp] at h
  · rcases hstops : request.stops with _ | ⟨s, rest⟩ <;> simp only [hstops] at h
    · exact Except.noConfusion h
    · injection h with h'
      subst h'
      rfl
  · injection h with h'
    subst h'
    rfl

/-- With every stop id non-empty, each loop iteration removes the
selected id from `unvisited`, so `unvisited.length` fuel empties it: the
Python `while unvisited:` loop genuinely terminates, and the fueled model
returns its true final state, not a fuel artifact. -/
lemma nnLoopLM_empties (stops : List LastMileStop)
    (hids : ∀ s ∈ stops, s.id ≠ "") :
    ∀ (fuel : Nat) (st : NNState),
      st.unvisited.length ≤ fuel →
      (∀ sid ∈ st.unvisited, ∃ s ∈ stops, s.id = sid) →
      ∀ st', nnLoopLM stops fuel st = Except.ok st' → st'.unvisited = [] := by
  intro fuel
  induction fuel with
  | zero =>
    intro st hlen _ st' h
    have hemp : st.unvisited = [] := List.length_eq_zero.mp (Nat.le_zero.mp hlen)
    injection h with h'
    rw [← h']
    exact hemp
  | succ n ih =>
    intro st hlen hsub st' h
    rw [nnLoopLM_succ] at h
    by_cases hemp : st.unvisited = []
    · rw [if_pos hemp] at h
      injection h with h'
      rw [← h']
      exact hemp
    · rw [if_neg hemp] at h
      obtain ⟨u, hu⟩ := List.exists_mem_of_ne_nil st.unvisited hemp
      obtain ⟨s, hsmem, hsid⟩ := hsub u hu
      obtain ⟨⟨sid, d⟩, hsel⟩ : ∃ b,
          selectNearest stops st.unvisited st.current_loc = some b :=
        selectNearest_success ⟨s, hsmem, by rw [hsid]; exact hu⟩
      obtain ⟨s', hs'mem, hs'id, hsidu, _⟩ := selectNearest_provenance hsel
      have hne : ¬ sid = "" := by
        rw [← hs'id]
        exact hids s' hs'mem
      rw [hs'id] at hsidu
      obtain ⟨stop, hfind⟩ := findStop_found ⟨s', hs'mem, hs'id⟩
      simp only [nnStep_eq_ok hsel hne hfind] at h
      refine ih _ ?_ ?_ st' h
      · show (st.unvisited.erase sid).length ≤ n
        rw [List.length_erase_of_mem hsidu]
        omega
      · intro sid2 hsid2
        exact hsub sid2 (List.mem_of_mem_erase hsid2)

/-- With any well-referenced current sequence, the heuristic always
returns a response. -/
lemma heuristic_ok (request : LastMileRequest)
    (hseq : ∀ seq, request.currentSequence = some seq →
      ∀ sid ∈ seq, ∃ s ∈ request.stops, s.id = sid) :
    ∃ r, heuristic_optimize_last_mile request = Except.ok r := by
  unfold heuristic_optimize_last_mile
  by_cases hlen : request.stops.length ≤ 1
  · rw [if_pos hlen]
    exact ⟨_, rfl⟩
  · rw [if_neg hlen]
    have hne : request.stops ≠ [] := by
      intro h0
      rw [h0] at hlen
      simp at hlen
    obtain ⟨st0, hinit, hopt0⟩ := initStateLM_ok hne
    simp only [hinit]
    obtain ⟨st, hloop, hopt⟩ := nnLoopLM_ok request.stops request.stops.length st0
      (by rw [hopt0]; simp)
    simp only [hloop]
    obtain ⟨cd, hcsd⟩ : ∃ cd,
        calculate_sequence_total_distance
          (pyOr request.currentSequence (request.stops.map (fun s => s.id)))
          request.stops request.vehiclePosition = Except.ok cd := by
      apply csd_ok
      apply pyOr_forall
      · intro sid hsid
        obtain ⟨s, hs, hsid'⟩ := List.mem_map.mp hsid
        exact ⟨s, hs, hsid'⟩
      · exact hseq
    simp only [hcsd]
    obtain ⟨segs, hsegs⟩ : ∃ x, build_segment_durations st.optimized request.stops
        request.vehiclePosition = Except.ok x := bsd_ok hopt
    simp only [hsegs]
    exact ⟨_, rfl⟩

/-- C4 (amended): provided every stop identifier is non-empty (ruling
out the C1 stall, so the selection loop genuinely terminates — its
`unvisited` set is provably emptied within `stops.length` iterations)
and every identifier in the caller-supplied current sequence (when
present) names one of the request's stops, the optimize entry point
never raises: it always returns a response, and any exception inside the
ML `try` block (feature construction, oracle inference, decoding,
metrics) is caught and answered with the heuristic fallback instead. -/
theorem c4_never_raises (model : Option Oracle) (request : LastMileRequest)
    (hids : ∀ s ∈ request.stops, s.id ≠ "")
    (hseq : ∀ seq, request.currentSequence = some seq →
      ∀ sid ∈ seq, ∃ s ∈ request.stops, s.id = sid) :
    (∃ r, ml_optimize_last_mile model request = Except.ok r) ∧
    (∀ st0 st', initStateLM request = Except.ok st0 →
      nnLoopLM request.stops request.stops.length st0 = Except.ok st' →
      st'.unvisited = []) ∧
    (∀ f, model = some f → ¬ request.stops.length ≤ 1 →
      ∀ e, mlTryBody f request = Except.error e →
        ml_optimize_last_mile model request = heuristic_optimize_last_mile request) := by
  refine ⟨?_, ?_, ?_⟩
  · cases model with
    | none => exact heuristic_ok request hseq
    | some f =>
      simp only [ml_optimize_last_mile]
      by_cases hlen : request.stops.length ≤ 1
      · rw [if_pos hlen]
        exact heuristic_ok request hseq
      · rw [if_neg hlen]
        rcases hmb : mlTryBody f request with e | r
        · simp only []
          exact heuristic_ok request hseq
        · exact ⟨r, rfl⟩
  · intro st0 st' hinit hloop
    have hunv := initStateLM_unvisited hinit
    refine nnLoopLM_empties request.stops hids request.stops.length st0 ?_ ?_ st' hloop
    · rw [hunv]
      calc ((request.stops.map (fun s => s.id)).dedup).length
          ≤ (request.stops.map (fun s => s.id)).length :=
            (List.dedup_sublist _).length_le
        _ = request.stops.length := List.length_map _ _
    · rw [hunv]
      intro sid hsid
      rw [List.mem_dedup] at hsid
      obtain ⟨s, hs, hsid'⟩ := List.mem_map.mp hsid
      exact ⟨s, hs, hsid'⟩
  · intro f hf hlen e he
    subst hf
    simp only [ml_optimize_last_mile]
    rw [if_neg hlen]
    simp only [he]

/-! ### C4 counterexample: a current sequence naming an unknown stop -/

def c4stopX : LastMileStop :=
  { id := "X", name := "X", coordinates := ⟨0, 0⟩
    unloadingTimeMinutes := 0, priority := 0 }

def c4stopY : LastMileStop :=
  { id := "Y", name := "Y", coordinates := ⟨0, 0⟩
    unloadingTimeMinutes := 0, priority := 0 }

def c4req : LastMileRequest :=
  { stops := [c4stopX, c4stopY], vehiclePosition := none
    currentSequence := some ["Z"] }

def c4st0 : NNState :=
  { unvisited := ["X", "Y"], optimized := [], current_loc := ⟨0, 0⟩
    total_distance := 0, route_path := [⟨0, 0⟩] }

def c4st1 : NNState :=
  { unvisited := ["Y"], optimized := ["X"], current_loc := ⟨0, 0⟩
    total_distance := 0, route_path := [⟨0, 0⟩, ⟨0, 0⟩] }

def c4st2 : NNState :=
  { unvisited := [], optimized := ["X", "Y"], current_loc := ⟨0, 0⟩
    total_distance := 0, route_path := [⟨0, 0⟩, ⟨0, 0⟩, ⟨0, 0⟩] }

lemma c4_effX : effective_distance ⟨0, 0⟩ c4stopX = 0 := by
  unfold effective_distance
  rw [if_neg (by decide : ¬ c4stopX.priority = 1)]
  exact dist_self _

lemma c4_effY : effective_distance ⟨0, 0⟩ c4stopY = 0 := by
  unfold effective_distance
  rw [if_neg (by decide : ¬ c4stopY.priority = 1)]
  exact dist_self _

lemma c4_select1 :
    selectNearest c4req.stops c4st0.unvisited c4st0.current_loc = some ("X", 0) := by
  show List.foldl (snStep ["X", "Y"] ⟨0, 0⟩) none [c4stopX, c4stopY] = some ("X", 0)
  rw [List.foldl_cons, snStep_none (by decide : c4stopX.id ∈ ["X", "Y"]), c4_effX,
    List.foldl_cons,
    snStep_some_ge (by decide : c4stopY.id ∈ ["X", "Y"])
      (by rw [c4_effY]; exact lt_irrefl 0),
    List.foldl_nil]
  rfl

lemma c4_select2 :
    selectNearest c4req.stops c4st1.unvisited c4st1.current_loc = some ("Y", 0) := by
  show List.foldl (snStep ["Y"] ⟨0, 0⟩) none [c4stopX, c4stopY] = some ("Y", 0)
  rw [List.foldl_cons, snStep_skip (by decide : c4stopX.id ∉ ["Y"]),
    List.foldl_cons, snStep_none (by decide : c4stopY.id ∈ ["Y"]), c4_effY,
    List.foldl_nil]
  rfl

lemma c4_step1 : nnStep c4req.stops c4st0 = Except.ok c4st1 := by
  rw [nnStep_eq_ok c4_select1 (by decide) (by rfl)]
  simp only [Except.ok.injEq]
  unfold c4st0 c4st1
  norm_num [c4stopX]

lemma c4_step2 : nnStep c4req.stops c4st1 = Except.ok c4st2 := by
  rw [nnStep_eq_ok c4_select2 (by decide) (by rfl)]
  simp only [Except.ok.injEq]
  unfold c4st1 c4st2
  norm_num [c4stopY]

lemma c4_loop : nnLoopLM c4req.stops c4req.stops.length c4st0 = Except.ok c4st2 := by
  rw [show c4req.stops.length = 1 + 1 from rfl, nnLoopLM_succ,
    if_neg (by decide : ¬ c4st0.unvisited = [])]
  simp only [c4_step1]
  rw [show (1 : Nat) = 0 + 1 from rfl, nnLoopLM_succ,
    if_neg (by decide : ¬ c4st1.unvisited = [])]
  simp only [c4_step2]
  rfl

/-- C4 counterexample: a well-formed 2-stop request whose caller-supplied
current sequence names the unknown stop id "Z" makes
`calculate_sequence_total_distance` raise `StopIteration` inside the
heuristic fallback, and the exception escapes the optimizer (the
endpoint then answers HTTP 500). -/
theorem c4_counterexample :
    ml_optimize_last_mile none c4req = Except.error PyErr.stopIteration := by
  show heuristic_optimize_last_mile c4req = Except.error PyErr.stopIteration
  unfold heuristic_optimize_last_mile
  rw [if_neg (by decide : ¬ c4req.stops.length ≤ 1)]
  simp only [show initStateLM c4req = Except.ok c4st0 from rfl, c4_loop]
  simp only [show calculate_sequence_total_distance
      (pyOr c4req.currentSequence (List.map (fun s => s.id) c4req.stops))
      c4req.stops c4req.vehiclePosition = Except.error PyErr.stopIteration from rfl]

def c4wreq : LastMileRequest :=
  { stops := [c4stopX, c4stopY], vehiclePosition := none, currentSequence := none }

theorem c4_witness :
    (∃ r, ml_optimize_last_mile none c4wreq = Except.ok r) ∧
    (∀ st0 st', initStateLM c4wreq = Except.ok st0 →
      nnLoopLM c4wreq.stops c4wreq.stops.length st0 = Except.ok st' →
      st'.unvisited = []) ∧
    (∀ f, (none : Option Oracle) = some f → ¬ c4wreq.stops.length ≤ 1 →
      ∀ e, mlTryBody f c4wreq = Except.error e →
        ml_optimize_last_mile none c4wreq = heuristic_optimize_last_mile c4wreq) :=
  c4_never_raises none c4wreq
    (by
      intro s hs
      rcases List.mem_cons.mp hs with rfl | hs'
      · decide
      · rcases List.mem_cons.mp hs' with rfl | hnil
        · decide
        · exact absurd hnil (List.not_mem_nil _))
    (fun _ h => nomatch h)

/-! ### C6: what the reported savings actually are -/

/-- C6 (amended): the reported savings are clamped at zero and time
savings are twice the distance savings on both paths, but the two paths
subtract different quantities.  On the learned path both totals come from
`calculate_sequence_total_distance` (miles).  On the heuristic path the
subtrahend is the greedy loop's accumulated *effective* distance — raw
kilometres, including the 20 % priority discounts — not the optimized
sequence's distance in miles. -/
theorem c6_savings (request : LastMileRequest) (h2 : 2 ≤ request.stops.length) :
    (∀ (st0 st : NNState) (D : ℝ) (r : LastMileResponse),
      initStateLM request = Except.ok st0 →
      nnLoopLM request.stops request.stops.length st0 = Except.ok st →
      calculate_sequence_total_distance
        (pyOr request.currentSequence (request.stops.map (fun s => s.id)))
        request.stops request.vehiclePosition = Except.ok D →
      heuristic_optimize_last_mile request = Except.ok r →
      r.distance_savings_miles = max 0 (D - st.total_distance) ∧
        r.time_savings_minutes = r.distance_savings_miles * 2) ∧
    (∀ (f : Oracle) (r : LastMileResponse) (D1 D2 : ℝ),
      mlTryBody f request = Except.ok r →
      calculate_sequence_total_distance
        (pyOr request.currentSequence (request.stops.map (fun s => s.id)))
        request.stops request.vehiclePosition = Except.ok D1 →
      calculate_sequence_total_distance r.optimized_sequence request.stops
        request.vehiclePosition = Except.ok D2 →
      r.distance_savings_miles = max 0 (D1 - D2) ∧
        r.time_savings_minutes = max 0 (D1 - D2) * 2) := by
  constructor
  · intro st0 st D r hinit hloop hcsd hr
    unfold heuristic_optimize_last_mile at hr
    rw [if_neg (by omega)] at hr
    simp only [hinit, hloop, hcsd] at hr
    rcases hsegs : build_segment_durations st.optimized request.stops
        request.vehiclePosition with e | segs <;> simp only [hsegs] at hr
    · exact Except.noConfusion hr
    · injection hr with hr'
      subst hr'
      exact ⟨rfl, rfl⟩
  · intro f r D1 D2 hmb hD1 hD2
    unfold mlTryBody at hmb
    rcases h0 : build_graph_from_stops request.stops request.vehiclePosition
      with e | g <;> simp only [h0] at hmb
    · exact Except.noConfusion hmb
    rcases h1 : f g.1 g.2 with e | edge_scores <;> simp only [h1] at hmb
    · exact Except.noConfusion hmb
    rcases hids : idsOfIndices request.stops
        (decode_route_from_scores edge_scores request.stops.length)
      with e | oseq <;> simp only [hids] at hmb
    · exact Except.noConfusion hmb
    rcases h3 : calculate_sequence_total_distance
        (pyOr request.currentSequence (request.stops.map (fun s => s.id)))
        request.stops request.vehiclePosition with e | cd <;> simp only [h3] at hmb
    · exact Except.noConfusion hmb
    rcases h4 : calculate_sequence_total_distance oseq request.stops
        request.vehiclePosition with e | od <;> simp only [h4] at hmb
    · exact Except.noConfusion hmb
    rcases h5 : mlRoutePath request.stops request.vehiclePosition oseq
        (mlInitialPath request.vehiclePosition) with e | rp <;> simp only [h5] at hmb
    · exact Except.noConfusion hmb
    rcases h6 : build_segment_durations oseq request.stops
        request.vehiclePosition with e | segs <;> simp only [h6] at hmb
    · exact Except.noConfusion hmb
    injection hmb with hmb'
    subst hmb'
    rw [h3] at hD1
    injection hD1 with hD1'
    subst hD1'
    have hD2' : calculate_sequence_total_distance oseq request.stops
        request.vehiclePosition = Except.ok D2 := hD2
    rw [h4] at hD2'
    injection hD2' with hD2''
    subst hD2''
    exact ⟨rfl, rfl⟩

def c6stopA : LastMileStop :=
  { id := "A", name := "A", coordinates := ⟨0, 1⟩
    unloadingTimeMinutes := 0, priority := 0 }

def c6stopB : LastMileStop :=
  { id := "B", name := "B", coordinates := ⟨0, 10⟩
    unloadingTimeMinutes := 0, priority := 0 }

def c6req : LastMileRequest :=
  { stops := [c6stopA, c6stopB], vehiclePosition := some ⟨0, 0⟩
    currentSequence := some ["B", "A"] }

def c6st0 : NNState :=
  { unvisited := ["A", "B"], optimized := [], current_loc := ⟨0, 0⟩
    total_distance := 0, route_path := [⟨0, 0⟩] }

noncomputable def c6st1 : NNState :=
  { unvisited := ["B"], optimized := ["A"], current_loc := ⟨0, 1⟩
    total_distance := 6371 * ((1 - 0) * (Real.pi / 180))
    route_path := [⟨0, 0⟩, ⟨0, 1⟩] }

noncomputable def c6st2 : NNState :=
  { unvisited := [], optimized := ["A", "B"], current_loc := ⟨0, 10⟩
    total_distance := 6371 * ((1 - 0) * (Real.pi / 180)) +
      6371 * ((10 - 1) * (Real.pi / 180))
    route_path := [⟨0, 0⟩, ⟨0, 1⟩, ⟨0, 10⟩] }

lemma c6_dA : calculate_distance_km ⟨0, 0⟩ c6stopA.coordinates =
    6371 * ((1 - 0) * (Real.pi / 180)) :=
  dist_equator 0 1 (by norm_num) (by norm_num)

lemma c6_dB : calculate_distance_km ⟨0, 0⟩ c6stopB.coordinates =
    6371 * ((10 - 0) * (Real.pi / 180)) :=
  dist_equator 0 10 (by norm_num) (by norm_num)

lemma c6_dAB : calculate_distance_km c6stopA.coordinates c6stopB.coordinates =
    6371 * ((10 - 1) * (Real.pi / 180)) :=
  dist_equator 1 10 (by norm_num) (by norm_num)

lemma c6_dBA : calculate_distance_km c6stopB.coordinates c6stopA.coordinates =
    6371 * ((10 - 1) * (Real.pi / 180)) :=
  (dist_symm _ _).trans c6_dAB

lemma c6_effA : effective_distance ⟨0, 0⟩ c6stopA =
    6371 * ((1 - 0) * (Real.pi / 180)) := by
  unfold effective_distance
  rw [if_neg (by decide : ¬ c6stopA.priority = 1)]
  exact c6_dA

lemma c6_effB : effective_distance ⟨0, 0⟩ c6stopB =
    6371 * ((10 - 0) * (Real.pi / 180)) := by
  unfold effective_distance
  rw [if_neg (by decide : ¬ c6stopB.priority = 1)]
  exact c6_dB

lemma c6_effB1 : effective_distance ⟨0, 1⟩ c6stopB =
    6371 * ((10 - 1) * (Real.pi / 180)) := by
  unfold effective_distance
  rw [if_neg (by decide : ¬ c6stopB.priority = 1)]
  exact c6_dAB

lemma c6_select1 :
    selectNearest c6req.stops c6st0.unvisited c6st0.current_loc =
      some ("A", 6371 * ((1 - 0) * (Real.pi / 180))) := by
  show List.foldl (snStep ["A", "B"] ⟨0, 0⟩) none [c6stopA, c6stopB] = _
  rw [List.foldl_cons, snStep_none (by decide : c6stopA.id ∈ ["A", "B"]), c6_effA,
    List.foldl_cons, snStep_some_ge (by decide : c6stopB.id ∈ ["A", "B"]) ?hge,
    List.foldl_nil]
  · rfl
  case hge =>
    rw [c6_effB]
    refine not_lt.mpr ?_
    show (6371 * ((1 - 0) * (Real.pi / 180)) : ℝ) ≤ 6371 * ((10 - 0) * (Real.pi / 180))
    nlinarith [Real.pi_pos]

lemma c6_select2 :
    selectNearest c6req.stops c6st1.unvisited c6st1.current_loc =
      some ("B", 6371 * ((10 - 1) * (Real.pi / 180))) := by
  show List.foldl (snStep ["B"] ⟨0, 1⟩) none [c6stopA, c6stopB] = _
  rw [List.foldl_cons, snStep_skip (by decide : c6stopA.id ∉ ["B"]),
    List.foldl_cons, snStep_none (by decide : c6stopB.id ∈ ["B"]), c6_effB1,
    List.foldl_nil]
  rfl

lemma c6_step1 : nnStep c6req.stops c6st0 = Except.ok c6st1 := by
  rw [nnStep_eq_ok c6_select1 (by decide) (by rfl)]
  simp only [Except.ok.injEq]
  unfold c6st0 c6st1
  norm_num [c6stopA]

lemma c6_step2 : nnStep c6req.stops c6st1 = Except.ok c6st2 := by
  rw [nnStep_eq_ok c6_select2 (by decide) (by rfl)]
  simp only [Except.ok.injEq]
  unfold c6st1 c6st2
  norm_num [c6stopB]

lemma c6_loop : nnLoopLM c6req.stops c6req.stops.length c6st0 = Except.ok c6st2 := by
  rw [show c6req.stops.length = 1 + 1 from rfl, nnLoopLM_succ,
    if_neg (by decide : ¬ c6st0.unvisited = [])]
  simp only [c6_step1]
  rw [show (1 : Nat) = 0 + 1 from rfl, nnLoopLM_succ,
    if_neg (by decide : ¬ c6st1.unvisited = [])]
  simp only [c6_step2]
  rfl

lemma c6_csd_current :
    calculate_sequence_total_distance ["B", "A"] c6req.stops c6req.vehiclePosition =
      Except.ok ((0 + 6371 * ((10 - 0) * (Real.pi / 180)) +
        6371 * ((10 - 1) * (Real.pi / 180))) * 0.621371) := by
  rw [show calculate_sequence_total_distance ["B", "A"] c6req.stops
        c6req.vehiclePosition =
      Except.ok ((0 + calculate_distance_km ⟨0, 0⟩ c6stopB.coordinates +
        calculate_distance_km c6stopB.coordinates c6stopA.coordinates) * 0.621371)
      from rfl, c6_dB, c6_dBA]

lemma c6_csd_opt :
    calculate_sequence_total_distance ["A", "B"] c6req.stops c6req.vehiclePosition =
      Except.ok ((0 + 6371 * ((1 - 0) * (Real.pi / 180)) +
        6371 * ((10 - 1) * (Real.pi / 180))) * 0.621371) := by
  rw [show calculate_sequence_total_distance ["A", "B"] c6req.stops
        c6req.vehiclePosition =
      Except.ok ((0 + calculate_distance_km ⟨0, 0⟩ c6stopA.coordinates +
        calculate_distance_km c6stopA.coordinates c6stopB.coordinates) * 0.621371)
      from rfl, c6_dA, c6_dAB]

lemma c6_seq_ok : ∀ seq, c6req.currentSequence = some seq →
    ∀ sid ∈ seq, ∃ s ∈ c6req.stops, s.id = sid := by
  intro seq h sid hsid
  injection h with h'
  rw [← h'] at hsid
  rcases List.mem_cons.mp hsid with rfl | hsid'
  · exact ⟨c6stopB, List.mem_cons_of_mem _ (List.mem_cons_self _ _), rfl⟩
  · rcases List.mem_cons.mp hsid' with rfl | hnil
    · exact ⟨c6stopA, List.mem_cons_self _ _, rfl⟩
    · exact absurd hnil (List.not_mem_nil _)

/-- Fields of the heuristic response at the C6 request. -/
lemma c6_fields : ∀ r, heuristic_optimize_last_mile c6req = Except.ok r →
    r.optimized_sequence = ["A", "B"] ∧
    r.distance_savings_miles = max 0 ((0 + 6371 * ((10 - 0) * (Real.pi / 180)) +
      6371 * ((10 - 1) * (Real.pi / 180))) * 0.621371 - c6st2.total_distance) := by
  intro r hr
  unfold heuristic_optimize_last_mile at hr
  rw [if_neg (by decide : ¬ c6req.stops.length ≤ 1)] at hr
  simp only [show initStateLM c6req = Except.ok c6st0 from rfl, c6_loop] at hr
  simp only [show (pyOr c6req.currentSequence (List.map (fun s => s.id) c6req.stops)) =
    ["B", "A"] from rfl] at hr
  simp only [c6_csd_current] at hr
  rcases hsegs : build_segment_durations c6st2.optimized c6req.stops
      c6req.vehiclePosition with e | segs <;> simp only [hsegs] at hr
  · exact Except.noConfusion hr
  · injection hr with hr'
    subst hr'
    exact ⟨rfl, rfl⟩

/-- C6 counterexample: at a 2-stop equator request with baseline sequence
[B, A], the heuristic's reported distance savings is
`max 0 (baseline_miles − greedy_total_km)`, which differs from
`max 0 (baseline_miles − optimized_miles)` — the reported value mixes
miles with raw kilometres, so the claim's equation fails. -/
theorem c6_counterexample :
    ∃ r D1 D2, heuristic_optimize_last_mile c6req = Except.ok r ∧
      calculate_sequence_total_distance ["B", "A"] c6req.stops
        c6req.vehiclePosition = Except.ok D1 ∧
      calculate_sequence_total_distance r.optimized_sequence c6req.stops
        c6req.vehiclePosition = Except.ok D2 ∧
      r.optimized_sequence = ["A", "B"] ∧
      r.distance_savings_miles ≠ max 0 (D1 - D2) := by
  obtain ⟨r, hr⟩ := heuristic_ok c6req c6_seq_ok
  obtain ⟨hopt, hsav⟩ := c6_fields r hr
  refine ⟨r, _, (0 + 6371 * ((1 - 0) * (Real.pi / 180)) +
    6371 * ((10 - 1) * (Real.pi / 180))) * 0.621371, hr, c6_csd_current, ?_, hopt, ?_⟩
  · rw [hopt]
    exact c6_csd_opt
  · rw [hsav]
    rw [show c6st2.total_distance = 6371 * ((1 - 0) * (Real.pi / 180)) +
      6371 * ((10 - 1) * (Real.pi / 180)) from rfl]
    have hpi := Real.pi_pos
    rw [max_eq_right (by nlinarith), max_eq_right (by nlinarith)]
    intro hcontra
    nlinarith

theorem c6_witness :
    2 ≤ c6req.stops.length ∧
    ∃ r, heuristic_optimize_last_mile c6req = Except.ok r ∧
      r.distance_savings_miles = max 0 ((0 + 6371 * ((10 - 0) * (Real.pi / 180)) +
        6371 * ((10 - 1) * (Real.pi / 180))) * 0.621371 - c6st2.total_distance) ∧
      r.time_savings_minutes = r.distance_savings_miles * 2 := by
  obtain ⟨r, hr⟩ := heuristic_ok c6req c6_seq_ok
  have hmain := (c6_savings c6req (by decide)).1 c6st0 c6st2
    ((0 + 6371 * ((10 - 0) * (Real.pi / 180)) +
      6371 * ((10 - 1) * (Real.pi / 180))) * 0.621371) r rfl c6_loop
    c6_csd_current hr
  exact ⟨by decide, r, hr, hmain.1, hmain.2⟩

def c7req : LastMileRequest :=
  { stops := [{ id := "a", name := "a", coordinates := ⟨1, 2⟩
                unloadingTimeMinutes := 0, priority := 0 }]
    vehiclePosition := none, currentSequence := none }

theorem c7_witness :
    ∃ r, ml_optimize_last_mile none c7req = Except.ok r ∧
      ((0 ≤ r.confidence ∧ r.confidence ≤ 1) ∧
       (∀ (f : Oracle) (r' : LastMileResponse), mlTryBody f c7req = Except.ok r' →
         (∃ s : ℝ, 0 ≤ s ∧ r'.confidence = min 0.95 (0.7 + s * 0.5)) ∧
         0.7 ≤ r'.confidence ∧ r'.confidence ≤ 0.95) ∧
       (∀ (f : Oracle) (r' : LastMileResponse), (none : Option Oracle) = some f →
         ¬ c7req.stops.length ≤ 1 →
         mlTryBody f c7req = Except.ok r' → r = r')) := by
  refine ⟨_, rfl, c7_confidence_bounds none c7req _ rfl⟩

end RerouteVerif
